import Mathlib

/-!
# Shallow embedding of the PicManager moderation core

This file embeds the moderation workflow of the PicManager repository:
the pending-request state machine (`app/routers/admin.py`,
`app/routers/api.py`), the session registry and guest-quota tracker
(`app/routers/auth.py`), the catalog services (`app/services.py`) and the
snapshot durability layer (`app/database.py`).

Modelling conventions:
* `datetime` values and calendar dates are natural numbers.
* SQLAlchemy tables are lists of rows; `query(...).first()` is `List.find?`,
  `db.delete(obj)` is `List.eraseP`, mutating a fetched ORM object is
  `updateFirst` on the row the query found.
* An ORM session is a staged database plus the list of states committed so
  far; `db.commit()` appends the staged state.  `get_db_context` commits on
  normal exit and rolls back to the last committed state on an exception.
* JSON payloads (`PendingRequest.image_data`) are modelled structurally as a
  record of optional fields; a key that is present with JSON `null` is
  identified with an absent key (no claim distinguishes the two).
* The file store is the set of existing relative paths; file contents only
  matter for the snapshot layer, where they are byte lists.
-/

namespace PicMan

/-- models.py `RequestStatus.PENDING` -/
def RequestStatus.PENDING : String := "pending"

/-- models.py `RequestStatus.APPROVED` -/
def RequestStatus.APPROVED : String := "approved"

/-- models.py `RequestStatus.REJECTED` -/
def RequestStatus.REJECTED : String := "rejected"

/-- auth.py `GUEST_DAILY_LIMIT = 5` -/
def GUEST_DAILY_LIMIT : Nat := 5

/-- Replace the first element satisfying `p` (the row a `.first()` query
returned and the code then mutated in place). -/
def updateFirst (p : α → Bool) (f : α → α) : List α → List α
  | [] => []
  | x :: xs => if p x then f x :: xs else x :: updateFirst p f xs

/-- Python truthiness of an optional string (`None` and `""` are falsy). -/
def truthyStr : Option String → Bool
  | some s => s != ""
  | none => false

/-- Python truthiness of an optional integer (`None` and `0` are falsy). -/
def truthyNat : Option Nat → Bool
  | some n => n != 0
  | none => false

/-! ## Guest quota tracker (auth.py 774-796) -/

/-- models.py `GuestLimit` row.  The caller hands `check_guest_limit` the ip
taken from `session.get("guest_ip")`, which is why the key is optional; in
every reachable flow a guest session carries a concrete ip. -/
structure GuestLimitRow where
  ip_address : Option String
  date : Nat
  operation_count : Nat
deriving Repr, DecidableEq

/-- The `(ip, today)` filter of `check_guest_limit`'s query. -/
def guestLimitMatches (ip : Option String) (today : Nat) (r : GuestLimitRow) : Bool :=
  r.ip_address == ip && r.date == today

/-- auth.py 774-796 `check_guest_limit(db, ip_address)`: look up or lazily
create the `(ip, today)` row; refuse without mutating at the ceiling,
otherwise increment.  `today` stands for `date.today()`.  Returns the
allowed flag and the staged `guest_limits` table. -/
def check_guest_limit (today : Nat) (limits : List GuestLimitRow)
    (ip_address : Option String) : Bool × List GuestLimitRow :=
  match limits.find? (guestLimitMatches ip_address today) with
  | none => (true, limits ++ [{ ip_address := ip_address, date := today, operation_count := 1 }])
  | some r =>
    if GUEST_DAILY_LIMIT ≤ r.operation_count then
      (false, limits)
    else
      (true, updateFirst (guestLimitMatches ip_address today)
        (fun q => { q with operation_count := q.operation_count + 1 }) limits)

/-- Test harness: fold `n` consecutive `check_guest_limit` calls for one
`(ip, today)` key, counting how many were allowed. -/
def consume_n (today : Nat) (ip : Option String) :
    Nat → List GuestLimitRow → List GuestLimitRow × Nat
  | 0, limits => (limits, 0)
  | n + 1, limits =>
    let (limits', k) := consume_n today ip n limits
    let (allowed, limits'') := check_guest_limit today limits' ip
    (limits'', k + (if allowed then 1 else 0))

/-! ## Session registry (auth.py 163-224, 799-810) -/

/-- models.py `UserSession` row. -/
structure UserSessionRow where
  session_id : String
  user_id : Option Nat
  guest_ip : Option String
  is_guest : String
  created_at : Nat
  last_activity : Nat
  expires_at : Nat
deriving Repr, DecidableEq

/-- The dict `get_session` returns on success. -/
structure SessionView where
  user_id : Option Nat
  is_guest : Bool
  guest_ip : Option String
  created_at : Nat
  session_id : String
deriving Repr, DecidableEq

/-- auth.py 192-215 `get_session(db, session_id)`: fail closed.  Unknown token
returns none; a token found past expiry deletes the row and returns none; a
valid hit refreshes `last_activity` and returns the identity.  `now` stands
for `datetime.utcnow()`. -/
def get_session (now : Nat) (sessions : List UserSessionRow) (session_id : String) :
    Option SessionView × List UserSessionRow :=
  match sessions.find? (fun s => s.session_id == session_id) with
  | none => (none, sessions)
  | some s =>
    if s.expires_at ≤ now then
      (none, sessions.eraseP (fun t => t.session_id == session_id))
    else
      (some { user_id := s.user_id, is_guest := s.is_guest == "true",
              guest_ip := s.guest_ip, created_at := s.created_at,
              session_id := s.session_id },
       updateFirst (fun t => t.session_id == session_id)
         (fun t => { t with last_activity := now }) sessions)

/-! ## Durability manager (database.py 69-113) -/

/-- The two files the durability layer touches: the live database file and
its snapshot, each either absent or some byte content. -/
structure DbFiles where
  live : Option (List Nat)
  snapshot : Option (List Nat)
deriving Repr, DecidableEq

/-- database.py 73-78 `file_hash`: a sha256 content digest, modelled as the
content itself (a collision-free idealisation: digests are equal exactly when
the contents are). -/
def file_hash (content : List Nat) : List Nat := content

/-- database.py 81-102 `restore_snapshot_if_needed`: no snapshot means no-op;
snapshot but no live file copies snapshot to live; both present with
differing digests replaces live with the snapshot; equal digests leave
everything alone. -/
def restore_snapshot_if_needed (fs : DbFiles) : DbFiles :=
  match fs.snapshot with
  | none => fs
  | some snap =>
    match fs.live with
    | none => { fs with live := some snap }
    | some cur =>
      if file_hash cur ≠ file_hash snap then { fs with live := some snap } else fs

/-- database.py 105-113 `create_db_snapshot`: copy the live file over the
snapshot path when the live file exists (the swallowed copy failure is not
modelled: we take the successful copy path the claims are about). -/
def create_db_snapshot (fs : DbFiles) : DbFiles :=
  match fs.live with
  | none => fs
  | some cur => { fs with snapshot := some cur }

/-! ## The guest-limit query endpoint (auth.py 746-771) -/

/-- Possible outcomes of `GET /guest-limit`. -/
inductive GuestLimitOutcome where
  | httpError (status : Nat) (detail : String)
  | raisesTypeError
  | notGuestAnswer
  | quotaAnswer (remaining : Nat) (daily : Nat)
deriving Repr, DecidableEq

/-- auth.py 746-771 `get_guest_limit`: with no cookie it raises 401.  With a
cookie it executes `session = get_session(session_id)` (line 753) — but
`get_session(db, session_id)` takes two required positional arguments, so the
call raises `TypeError` before any quota logic runs; the `notGuestAnswer`
and `quotaAnswer` outcomes written below the call are unreachable. -/
def get_guest_limit (cookie : Option String) : GuestLimitOutcome :=
  match cookie with
  | none => .httpError 401 "未登录"
  | some _ => .raisesTypeError

/-! ## Catalog data model (models.py) -/

/-- models.py `User` (the fields the moderation flow reads). -/
structure UserRow where
  id : Nat
  qq_number : String
  role : String
deriving Repr, DecidableEq

/-- models.py `Group`. -/
structure GroupRow where
  id : Nat
  name : String
  description : Option String
deriving Repr, DecidableEq

/-- models.py `Character`. -/
structure CharacterRow where
  id : Nat
  name : String
  group_id : Nat
  description : Option String
deriving Repr, DecidableEq

/-- models.py `CharacterNickname`. -/
structure CharacterNicknameRow where
  character_id : Nat
  nickname : String
deriving Repr, DecidableEq

/-- models.py `Image`; the many-to-many character association is carried on
the row.  The PIL-probed metadata (width/height/size) is irrelevant to every
claim and omitted. -/
structure ImageRow where
  image_id : String
  pid : Option String
  description : Option String
  original_filename : Option String
  file_extension : String
  file_path : String
  character_ids : List Nat
deriving Repr, DecidableEq

/-- The JSON payload stored in `PendingRequest.image_data`, modelled
structurally: every key any submission or approval path reads. -/
structure Payload where
  name : Option String := none
  description : Option String := none
  group_id : Option Nat := none
  character_id : Option Nat := none
  character_ids : Option (List Nat) := none
  nicknames : Option (List String) := none
  pid : Option String := none
deriving Repr, DecidableEq

/-- models.py `PendingRequest`.  Insertion timestamps play no role in any
claim and default to 0. -/
structure PendingRow where
  id : Nat
  request_type : String
  status : String := RequestStatus.PENDING
  user_id : Option Nat := none
  guest_ip : Option String := none
  image_id : Option String := none
  image_data : Option Payload := none
  temp_file_path : Option String := none
  original_filename : Option String := none
  rejection_reason : Option String := none
  created_at : Nat := 0
  reviewed_at : Option Nat := none
  reviewed_by : Option Nat := none
deriving Repr, DecidableEq

/-- The durable store: one list per table plus the autoincrement counters
the embedding needs. -/
structure Db where
  users : List UserRow := []
  user_sessions : List UserSessionRow := []
  guest_limits : List GuestLimitRow := []
  groups : List GroupRow := []
  next_group_id : Nat := 1
  characters : List CharacterRow := []
  next_character_id : Nat := 1
  character_nicknames : List CharacterNicknameRow := []
  images : List ImageRow := []
  pending_requests : List PendingRow := []
  next_pending_id : Nat := 1
deriving Repr, DecidableEq

/-! ## Pydantic schemas (schemas.py) -/

/-- schemas.py `GroupCreate`. -/
structure GroupCreate where
  name : String
  description : Option String := none
deriving Repr, DecidableEq

/-- schemas.py `GroupUpdate`; `none` means the field was not set
(`exclude_unset`). -/
structure GroupUpdate where
  name : Option String := none
  description : Option String := none
deriving Repr, DecidableEq

/-- schemas.py `CharacterCreate`. -/
structure CharacterCreate where
  name : String
  nicknames : Option (List String) := none
  group_id : Nat
  description : Option String := none
deriving Repr, DecidableEq

/-- schemas.py `CharacterUpdate`; `none` means not set. -/
structure CharacterUpdate where
  name : Option String := none
  nicknames : Option (List String) := none
  group_id : Option Nat := none
  description : Option String := none
deriving Repr, DecidableEq

/-- schemas.py `ImageCreate`. -/
structure ImageCreate where
  pid : Option String := none
  description : Option String := none
  character_ids : List Nat := []
deriving Repr, DecidableEq

/-- schemas.py `ImageUpdate`; `none` means not set. -/
structure ImageUpdate where
  pid : Option String := none
  description : Option String := none
  character_ids : Option (List Nat) := none
deriving Repr, DecidableEq

/-- schemas.py `PendingRequestAction`. -/
structure PendingRequestAction where
  action : String
  reason : Option String := none
deriving Repr, DecidableEq

/-! ## ORM session with commit trace (database.py 46-58) -/

/-- An open SQLAlchemy session: the staged state (`cur`) and the snapshots
committed so far, in order. -/
structure DbSession where
  cur : Db
  commits : List Db
deriving Repr, DecidableEq

/-- `db.commit()`: the staged state becomes durable. -/
def DbSession.commit (s : DbSession) : DbSession :=
  { s with commits := s.commits ++ [s.cur] }

/-- A fresh session opened by `get_db_context` on `db`. -/
def DbSession.start (db : Db) : DbSession := { cur := db, commits := [] }

/-- The durable state after a rollback: the last committed snapshot, or the
state `get_db_context` started from when nothing was committed. -/
def DbSession.persisted (db0 : Db) (s : DbSession) : Db :=
  s.commits.getLast?.getD db0

/-! ## File store -/

/-- The set of existing file paths (store, pending quarantine, temp). -/
abbrev Fs := List String

/-- `shutil.copy2` / writing a new file. -/
def Fs.add (fs : Fs) (p : String) : Fs :=
  if fs.contains p then fs else fs ++ [p]

/-- `os.unlink` with the source's swallow-if-missing behaviour. -/
def Fs.remove (fs : Fs) (p : String) : Fs :=
  fs.filter (fun q => q != p)

/-- `filename.split('.')[-1]` — the part after the last dot. -/
def lastDotPart (s : String) : String :=
  (s.splitOn ".").getLastD ""

/-! ## Catalog services (services.py) -/

/-- services.py 16-28 `GroupService.create_group`: insert and commit. -/
def GroupService.create_group (g : GroupCreate) (s : DbSession) : GroupRow × DbSession :=
  let row : GroupRow := { id := s.cur.next_group_id, name := g.name, description := g.description }
  let cur := { s.cur with
    groups := s.cur.groups ++ [row],
    next_group_id := s.cur.next_group_id + 1 }
  let s := { s with cur := cur }
  (row, s.commit)

/-- Apply a `GroupUpdate`'s set fields to a row (`setattr` loop). -/
def applyGroupUpdate (u : GroupUpdate) (g : GroupRow) : GroupRow :=
  let g := match u.name with
    | some n => { g with name := n }
    | none => g
  match u.description with
  | some d => { g with description := some d }
  | none => g

/-- services.py 60-76 `GroupService.update_group`. -/
def GroupService.update_group (group_id : Nat) (u : GroupUpdate) (s : DbSession) :
    Option GroupRow × DbSession :=
  match s.cur.groups.find? (fun g => g.id == group_id) with
  | none => (none, s)
  | some g =>
    let g' := applyGroupUpdate u g
    let s := { s with cur := { s.cur with
      groups := updateFirst (fun x => x.id == group_id) (fun _ => g') s.cur.groups } }
    (some g', s.commit)

/-- services.py 79-86 `GroupService.delete_group`, with the SQLAlchemy
cascades of models.py: deleting a group drops its characters, which drop
their nicknames and their image associations. -/
def GroupService.delete_group (group_id : Nat) (s : DbSession) : Bool × DbSession :=
  match s.cur.groups.find? (fun g => g.id == group_id) with
  | none => (false, s)
  | some _ =>
    let deadChars := (s.cur.characters.filter (fun c => c.group_id == group_id)).map (fun c => c.id)
    let cur := s.cur
    let cur := { cur with
      groups := cur.groups.filter (fun g => g.id != group_id),
      characters := cur.characters.filter (fun c => c.group_id != group_id),
      character_nicknames := cur.character_nicknames.filter
        (fun n => !(deadChars.contains n.character_id)),
      images := cur.images.map (fun i =>
        { i with character_ids := i.character_ids.filter (fun cid => !(deadChars.contains cid)) }) }
    (true, ({ s with cur := cur }).commit)

/-- Keep-first deduplication over strings (`dict.fromkeys`). -/
def dedupKeepFirstAux (seen : List String) : List String → List String
  | [] => []
  | x :: xs =>
    if seen.contains x then dedupKeepFirstAux seen xs
    else x :: dedupKeepFirstAux (x :: seen) xs

/-- services.py 93-100 `CharacterService._normalize_nicknames`: strip, drop
empties, deduplicate keeping first occurrences.  (The comma-splitting branch
for a plain-string input is outside this typed model.) -/
def normalize_nicknames : Option (List String) → List String
  | none => []
  | some items => dedupKeepFirstAux [] ((items.map (fun x => x.trim)).filter (fun x => x != ""))

/-- services.py 107-134 `CharacterService.create_character`: insert and
commit the character; when there are nicknames, insert them and commit a
second time. -/
def CharacterService.create_character (c : CharacterCreate) (s : DbSession) :
    CharacterRow × DbSession :=
  let nicknames := normalize_nicknames c.nicknames
  let row : CharacterRow := {
    id := s.cur.next_character_id,
    name := c.name,
    group_id := c.group_id,
    description := c.description }
  let cur := { s.cur with
    characters := s.cur.characters ++ [row],
    next_character_id := s.cur.next_character_id + 1 }
  let s := ({ s with cur := cur }).commit
  if nicknames.isEmpty then (row, s)
  else
    let newNicks : List CharacterNicknameRow :=
      nicknames.map (fun n => { character_id := row.id, nickname := n })
    let cur := { s.cur with
      character_nicknames := s.cur.character_nicknames ++ newNicks }
    let s := ({ s with cur := cur }).commit
    (row, s)

/-- Apply a `CharacterUpdate`'s set scalar fields to a row. -/
def applyCharacterUpdate (u : CharacterUpdate) (c : CharacterRow) : CharacterRow :=
  let c := match u.name with
    | some n => { c with name := n }
    | none => c
  let c := match u.group_id with
    | some g => { c with group_id := g }
    | none => c
  match u.description with
  | some d => { c with description := some d }
  | none => c

/-- services.py 184-220 `CharacterService.update_character`: commit the
scalar update; when nicknames were set, replace them and commit again. -/
def CharacterService.update_character (character_id : Nat) (u : CharacterUpdate)
    (s : DbSession) : Option CharacterRow × DbSession :=
  match s.cur.characters.find? (fun c => c.id == character_id) with
  | none => (none, s)
  | some c =>
    let c' := applyCharacterUpdate u c
    let s := ({ s with cur := { s.cur with
      characters := updateFirst (fun x => x.id == character_id) (fun _ => c')
        s.cur.characters } }).commit
    match u.nicknames with
    | none => (some c', s)
    | some ns =>
      let nicknames := normalize_nicknames (some ns)
      let cleared := s.cur.character_nicknames.filter (fun n => n.character_id != character_id)
      let newNicks : List CharacterNicknameRow :=
        nicknames.map (fun n => { character_id := character_id, nickname := n })
      let cur := { s.cur with character_nicknames := cleared ++ newNicks }
      let s := ({ s with cur := cur }).commit
      (some c', s)

/-- services.py 223-230 `CharacterService.delete_character`, with the
cascades on nicknames and image associations. -/
def CharacterService.delete_character (character_id : Nat) (s : DbSession) :
    Bool × DbSession :=
  match s.cur.characters.find? (fun c => c.id == character_id) with
  | none => (false, s)
  | some _ =>
    let cur := s.cur
    let cur := { cur with
      characters := cur.characters.filter (fun c => c.id != character_id),
      character_nicknames := cur.character_nicknames.filter
        (fun n => n.character_id != character_id),
      images := cur.images.map (fun i =>
        { i with character_ids := i.character_ids.filter (fun cid => cid != character_id) }) }
    (true, ({ s with cur := cur }).commit)

/-- services.py 242-264 `ImageService.save_image_file`: place the blob in the
store under the new id and return the relative path. -/
def save_image_file (fs : Fs) (image_id : String) (file_extension : String) : String × Fs :=
  let new_filename := image_id ++ "." ++ file_extension.toLower
  let relative_path := "resource/store/" ++ new_filename
  (relative_path, fs.add relative_path)

/-- services.py 267-302 `ImageService.create_image`.  The random-unique-id
retry loop is modelled by the `image_id` parameter: the caller supplies the
id the loop settled on (its exit guarantees freshness).  Copies the file into
the store, inserts the row with the existing requested characters attached,
and commits. -/
def ImageService.create_image (image_id : String) (image : ImageCreate)
    (original_filename : String) (file_extension : String)
    (s : DbSession) (fs : Fs) : ImageRow × DbSession × Fs :=
  let (relative_path, fs) := save_image_file fs image_id file_extension
  let character_ids :=
    (s.cur.characters.filter (fun c => image.character_ids.contains c.id)).map (fun c => c.id)
  let row : ImageRow := {
    image_id := image_id,
    pid := image.pid,
    description := image.description,
    original_filename := some original_filename,
    file_extension := file_extension,
    file_path := relative_path,
    character_ids := character_ids }
  let s := ({ s with cur := { s.cur with images := s.cur.images ++ [row] } }).commit
  (row, s, fs)

/-- Apply an `ImageUpdate`'s set scalar fields to a row. -/
def applyImageUpdate (u : ImageUpdate) (i : ImageRow) : ImageRow :=
  let i := match u.pid with
    | some p => { i with pid := some p }
    | none => i
  match u.description with
  | some d => { i with description := some d }
  | none => i

/-- services.py 459-476 `ImageService.update_image`: partial update of the
scalar fields; when `character_ids` was set, re-point the association at the
existing characters among them; commit. -/
def ImageService.update_image (image_id : String) (u : ImageUpdate) (s : DbSession) :
    Option ImageRow × DbSession :=
  match s.cur.images.find? (fun i => i.image_id == image_id) with
  | none => (none, s)
  | some i =>
    let i' := applyImageUpdate u i
    let i' := match u.character_ids with
      | none => i'
      | some cids =>
        { i' with character_ids :=
          (s.cur.characters.filter (fun c => cids.contains c.id)).map (fun c => c.id) }
    let s := ({ s with cur := { s.cur with
      images := updateFirst (fun x => x.image_id == image_id) (fun _ => i') s.cur.images } }).commit
    (some i', s)

/-- services.py 479-495 `ImageService.delete_image`: remove the backing file
(best effort) and the row, commit. -/
def ImageService.delete_image (image_id : String) (s : DbSession) (fs : Fs) :
    Bool × DbSession × Fs :=
  match s.cur.images.find? (fun i => i.image_id == image_id) with
  | none => (false, s, fs)
  | some i =>
    let fs := fs.remove i.file_path
    let s := ({ s with cur := { s.cur with
      images := s.cur.images.filter (fun x => x.image_id != image_id) } }).commit
    (true, s, fs)

/-! ## The review decision (admin.py 182-356) -/

/-- Errors a request handler can surface: a raised `HTTPException`, or an
uncaught Python exception (which FastAPI turns into a 500). -/
inductive HErr where
  | http (status : Nat) (detail : String)
  | pyAttrError
  | pyValidationError
deriving Repr, DecidableEq

/-- What one call of the review endpoint produced: the response or error,
the durable database after the context manager closed (committed state, or
the rollback target on an exception), the ordered list of commits the call
performed, and the file store. -/
structure HandleOutcome where
  res : Except HErr String
  db : Db
  commits : List Db
  fs : Fs
deriving Repr

/-- An exception escapes `get_db_context`: the session rolls back, so the
durable state is the last committed snapshot (file-system effects, not being
transactional, stay). -/
def raiseH (db0 : Db) (s : DbSession) (fs : Fs) (e : HErr) : HandleOutcome :=
  { res := .error e, db := DbSession.persisted db0 s, commits := s.commits, fs := fs }

/-- Normal exit of `get_db_context`: one final commit, then return. -/
def finishH (s : DbSession) (fs : Fs) (msg : String) : HandleOutcome :=
  let s := s.commit
  { res := .ok msg, db := s.cur, commits := s.commits, fs := fs }

/-- `pending_req.status = ...; pending_req.reviewed_at = ...;
pending_req.reviewed_by = ...` on the staged row. -/
def setStatusAndStamp (s : DbSession) (request_id : Nat) (status : String)
    (admin_user_id : Nat) (now : Nat) : DbSession :=
  let stamp : PendingRow → PendingRow := fun r => { r with
    status := status,
    reviewed_at := some now,
    reviewed_by := some admin_user_id }
  let rows := updateFirst (fun r => r.id == request_id) stamp s.cur.pending_requests
  { s with cur := { s.cur with pending_requests := rows } }

/-- The result type of one approve branch: a raised exception together with
the session and file store at the raise site, or the updated pair. -/
abbrev BranchResult := Except (HErr × DbSession × Fs) (DbSession × Fs)

/-- admin.py 201-230: the image-`add` approve branch. -/
def approve_add (fresh_image_id : String) (req : PendingRow)
    (s : DbSession) (fs : Fs) : BranchResult :=
  let payload := req.image_data.getD {}
  if truthyStr req.temp_file_path && fs.contains (req.temp_file_path.getD "") then
    match req.original_filename with
    | none => .error (.pyAttrError, s, fs)
    | some ofn =>
      let file_extension := (lastDotPart ofn).toLower
      let image_create : ImageCreate := {
        character_ids := payload.character_ids.getD [],
        pid := payload.pid,
        description := payload.description }
      let (_, s, fs) := ImageService.create_image fresh_image_id image_create ofn
        file_extension s fs
      let fs := fs.remove (req.temp_file_path.getD "")
      .ok (s, fs)
  else .error (.http 400 "临时文件不存在", s, fs)

/-- admin.py 232-244: the image-`edit` approve branch. -/
def approve_edit (req : PendingRow) (s : DbSession) (fs : Fs) : BranchResult :=
  let payload := req.image_data.getD {}
  let image_update : ImageUpdate := {
    pid := payload.pid,
    description := payload.description,
    character_ids := payload.character_ids }
  match req.image_id with
  | none => .error (.http 404 "图片不存在", s, fs)
  | some iid =>
    match ImageService.update_image iid image_update s with
    | (none, s) => .error (.http 404 "图片不存在", s, fs)
    | (some _, s) => .ok (s, fs)

/-- admin.py 246-255: the `group_add` approve branch with its authoritative
re-run of the global duplicate-name check. -/
def approve_group_add (req : PendingRow) (s : DbSession) (fs : Fs) : BranchResult :=
  let payload := req.image_data.getD {}
  if (s.cur.groups.find? (fun g => some g.name == payload.name)).isSome then
    .error (.http 400 "分组名称已存在", s, fs)
  else
    match payload.name with
    | none => .error (.pyValidationError, s, fs)
    | some nm =>
      let (_, s) := GroupService.create_group
        { name := nm, description := payload.description } s
      .ok (s, fs)

/-- admin.py 257-273: the `group_edit` approve branch. -/
def approve_group_edit (req : PendingRow) (s : DbSession) (fs : Fs) : BranchResult :=
  let payload := req.image_data.getD {}
  if !(truthyNat payload.group_id) then
    .error (.http 400 "缺少分组ID", s, fs)
  else
    let gid := payload.group_id.getD 0
    if truthyStr payload.name &&
        (s.cur.groups.find? (fun g => some g.name == payload.name && g.id != gid)).isSome then
      .error (.http 400 "分组名称已存在", s, fs)
    else
      let group_update : GroupUpdate := {
        name := payload.name,
        description := payload.description }
      match GroupService.update_group gid group_update s with
      | (none, s) => .error (.http 404 "分组不存在", s, fs)
      | (some _, s) => .ok (s, fs)

/-- admin.py 275-282: the `group_delete` approve branch. -/
def approve_group_delete (req : PendingRow) (s : DbSession) (fs : Fs) : BranchResult :=
  let payload := req.image_data.getD {}
  if !(truthyNat payload.group_id) then
    .error (.http 400 "缺少分组ID", s, fs)
  else
    match GroupService.delete_group (payload.group_id.getD 0) s with
    | (false, s) => .error (.http 404 "分组不存在", s, fs)
    | (true, s) => .ok (s, fs)

/-- admin.py 284-298: the `character_add` approve branch with its
authoritative re-run of the in-group duplicate-name check. -/
def approve_character_add (req : PendingRow) (s : DbSession) (fs : Fs) : BranchResult :=
  let payload := req.image_data.getD {}
  if (s.cur.characters.find? (fun c =>
      some c.group_id == payload.group_id && some c.name == payload.name)).isSome then
    .error (.http 400 "该分组下已存在同名角色", s, fs)
  else
    match payload.name, payload.group_id with
    | some nm, some gid =>
      let (_, s) := CharacterService.create_character {
        name := nm,
        group_id := gid,
        description := payload.description,
        nicknames := payload.nicknames } s
      .ok (s, fs)
    | _, _ => .error (.pyValidationError, s, fs)

/-- admin.py 300-322: the `character_edit` approve branch. -/
def approve_character_edit (req : PendingRow) (s : DbSession) (fs : Fs) : BranchResult :=
  let payload := req.image_data.getD {}
  if !(truthyNat payload.character_id) then
    .error (.http 400 "缺少角色ID", s, fs)
  else
    let char_id := payload.character_id.getD 0
    let groupIdOpt :=
      if truthyNat payload.group_id then payload.group_id
      else (s.cur.characters.find? (fun c => c.id == char_id)).map (fun c => c.group_id)
    let dupHit :=
      truthyStr payload.name && truthyNat groupIdOpt &&
        (s.cur.characters.find? (fun c =>
          some c.group_id == groupIdOpt && some c.name == payload.name &&
            c.id != char_id)).isSome
    if dupHit then
      .error (.http 400 "该分组下已存在同名角色", s, fs)
    else
      let char_update : CharacterUpdate := {
        name := payload.name,
        group_id := payload.group_id,
        description := payload.description,
        nicknames := payload.nicknames }
      match CharacterService.update_character char_id char_update s with
      | (none, s) => .error (.http 404 "角色不存在", s, fs)
      | (some _, s) => .ok (s, fs)

/-- admin.py 324-331: the `character_delete` approve branch. -/
def approve_character_delete (req : PendingRow) (s : DbSession) (fs : Fs) : BranchResult :=
  let payload := req.image_data.getD {}
  if !(truthyNat payload.character_id) then
    .error (.http 400 "缺少角色ID", s, fs)
  else
    match CharacterService.delete_character (payload.character_id.getD 0) s with
    | (false, s) => .error (.http 404 "角色不存在", s, fs)
    | (true, s) => .ok (s, fs)

/-- admin.py 199-333: the per-type approve dispatch.  Note the absence of a
branch for the image-`delete` type: the source comment at line 333 says the
admin deletes such images manually, so approval falls through with no
catalog effect. -/
def approve_branch (fresh_image_id : String) (req : PendingRow)
    (s : DbSession) (fs : Fs) : BranchResult :=
  if req.request_type == "add" then approve_add fresh_image_id req s fs
  else if req.request_type == "edit" then approve_edit req s fs
  else if req.request_type == "group_add" then approve_group_add req s fs
  else if req.request_type == "group_edit" then approve_group_edit req s fs
  else if req.request_type == "group_delete" then approve_group_delete req s fs
  else if req.request_type == "character_add" then approve_character_add req s fs
  else if req.request_type == "character_edit" then approve_character_edit req s fs
  else if req.request_type == "character_delete" then approve_character_delete req s fs
  else
    .ok (s, fs)

/-- admin.py 191-356: the body of `handle_pending_request` inside its
`get_db_context` block.  `admin_user_id` is the id `require_admin` returned,
`now` stands for `datetime.utcnow()`, `fresh_image_id` is the unique id the
image-add path's generator loop settles on.  Looks the request up, guards
the pending status, dispatches the decision, stamps reviewer and timestamp
and commits; any raise rolls the session back to its last committed state. -/
def handle_pending_request (admin_user_id : Nat) (now : Nat) (fresh_image_id : String)
    (request_id : Nat) (action : PendingRequestAction) (db0 : Db) (fs0 : Fs) :
    HandleOutcome :=
  let s := DbSession.start db0
  match db0.pending_requests.find? (fun r => r.id == request_id) with
  | none => raiseH db0 s fs0 (.http 404 "请求不存在")
  | some req =>
    if req.status != RequestStatus.PENDING then
      raiseH db0 s fs0 (.http 400 "请求已处理")
    else if action.action == "approve" then
      match approve_branch fresh_image_id req s fs0 with
      | .error (e, s', fs') => raiseH db0 s' fs' e
      | .ok (s', fs') =>
        let s' := setStatusAndStamp s' request_id RequestStatus.APPROVED admin_user_id now
        finishH s' fs' "请求已批准"
    else if action.action == "reject" then
      let fs :=
        if req.request_type == "add" && truthyStr req.temp_file_path then
          fs0.remove (req.temp_file_path.getD "")
        else fs0
      let s := setStatusAndStamp s request_id RequestStatus.REJECTED admin_user_id now
      finishH s fs "请求已拒绝"
    else
      raiseH db0 s fs0 (.http 400 "无效的操作")

/-! ## Submission endpoints (api.py) -/

/-- auth.py 799-810 `get_current_session(request, db)`: no cookie means no
session; otherwise resolve the cookie against the session table. -/
def get_current_session (now : Nat) (cookie : Option String)
    (sessions : List UserSessionRow) : Option SessionView × List UserSessionRow :=
  match cookie with
  | none => (none, sessions)
  | some sid => get_session now sessions sid

/-- The caller identity every api.py mutation endpoint computes. -/
structure CallerCtx where
  is_admin : Bool
  user_id : Option Nat
  guest_ip : Option String
deriving Repr, DecidableEq

/-- The session/privilege preamble repeated verbatim in every api.py
mutation endpoint (e.g. api.py 29-43): resolve the cookie, consume one
guest-quota slot for guests (429 when exhausted), look up the caller's role.
Works on the staged database; a later raise in the endpoint rolls all of it
back. -/
def resolve_caller (now : Nat) (today : Nat) (cookie : Option String) (db : Db) :
    Except HErr (CallerCtx × Db) :=
  let (sessionView, sessions) := get_current_session now cookie db.user_sessions
  let db := { db with user_sessions := sessions }
  match sessionView with
  | none => .ok ({ is_admin := false, user_id := none, guest_ip := none }, db)
  | some sv =>
    if sv.is_guest then
      let gip := sv.guest_ip
      let (allowed, limits) := check_guest_limit today db.guest_limits gip
      if allowed then
        .ok ({ is_admin := false, user_id := none, guest_ip := gip },
             { db with guest_limits := limits })
      else
        .error (.http 429 "今日操作次数已用完")
    else
      match db.users.find? (fun u => some u.id == sv.user_id) with
      | some u =>
        .ok ({ is_admin := u.role == "root" || u.role == "admin",
               user_id := some u.id, guest_ip := none }, db)
      | none =>
        .ok ({ is_admin := false, user_id := none, guest_ip := none }, db)

/-- The queued-for-review acknowledgment message every non-privileged
submission returns. -/
def queuedMsg : String := "待审核你的提交，可到个人中心查看进度"

/-- Outcome of an api.py endpoint that only touches the database: response
or raised error, plus the durable database after the context closed. -/
structure ApiOutcome (α : Type) where
  res : Except HErr α
  db : Db
deriving Repr

/-- Outcome of an api.py endpoint that also touches the file store. -/
structure ApiFsOutcome (α : Type) where
  res : Except HErr α
  db : Db
  fs : Fs
deriving Repr

/-- api.py 21-59 `create_group`: global duplicate-name check, caller
resolution, then either the immediate admin mutation (no request row) or a
queued `group_add` pending row. -/
def Api.create_group (now today : Nat) (cookie : Option String) (group : GroupCreate)
    (db0 : Db) : ApiOutcome (Sum GroupRow String) :=
  if (db0.groups.find? (fun g => g.name == group.name)).isSome then
    { res := .error (.http 400 "分组名称已存在"), db := db0 }
  else
    match resolve_caller now today cookie db0 with
    | .error e => { res := .error e, db := db0 }
    | .ok (ctx, db) =>
      if ctx.is_admin then
        let (row, s) := GroupService.create_group group (DbSession.start db)
        { res := .ok (.inl row), db := s.cur }
      else
        let row : PendingRow := {
          id := db.next_pending_id,
          request_type := "group_add",
          user_id := ctx.user_id,
          guest_ip := ctx.guest_ip,
          image_data := some { name := some group.name, description := group.description } }
        let db := { db with
          pending_requests := db.pending_requests ++ [row],
          next_pending_id := db.next_pending_id + 1 }
        { res := .ok (.inr queuedMsg), db := db }

/-- api.py 76-115 `update_group`: caller resolution, existence check, then
immediate admin update or a queued `group_edit` row carrying the set fields
plus the target id. -/
def Api.update_group (now today : Nat) (cookie : Option String) (group_id : Nat)
    (group_update : GroupUpdate) (db0 : Db) : ApiOutcome (Sum (Option GroupRow) String) :=
  match resolve_caller now today cookie db0 with
  | .error e => { res := .error e, db := db0 }
  | .ok (ctx, db) =>
    if (db.groups.find? (fun g => g.id == group_id)).isNone then
      { res := .error (.http 404 "Group not found"), db := db0 }
    else if ctx.is_admin then
      let (g, s) := GroupService.update_group group_id group_update (DbSession.start db)
      { res := .ok (.inl g), db := s.cur }
    else
      let row : PendingRow := {
        id := db.next_pending_id,
        request_type := "group_edit",
        user_id := ctx.user_id,
        guest_ip := ctx.guest_ip,
        image_data := some {
          name := group_update.name,
          description := group_update.description,
          group_id := some group_id } }
      let db := { db with
        pending_requests := db.pending_requests ++ [row],
        next_pending_id := db.next_pending_id + 1 }
      { res := .ok (.inr queuedMsg), db := db }

/-- api.py 117-158 `delete_group`: caller resolution, existence check, then
immediate admin cascade delete (no request row) or a queued `group_delete`
row. -/
def Api.delete_group (now today : Nat) (cookie : Option String) (group_id : Nat)
    (db0 : Db) : ApiOutcome String :=
  match resolve_caller now today cookie db0 with
  | .error e => { res := .error e, db := db0 }
  | .ok (ctx, db) =>
    if (db.groups.find? (fun g => g.id == group_id)).isNone then
      { res := .error (.http 404 "Group not found"), db := db0 }
    else if ctx.is_admin then
      match GroupService.delete_group group_id (DbSession.start db) with
      | (false, _) => { res := .error (.http 404 "Group not found"), db := db0 }
      | (true, s) => { res := .ok "Group deleted successfully", db := s.cur }
    else
      let row : PendingRow := {
        id := db.next_pending_id,
        request_type := "group_delete",
        user_id := ctx.user_id,
        guest_ip := ctx.guest_ip,
        image_data := some { group_id := some group_id } }
      let db := { db with
        pending_requests := db.pending_requests ++ [row],
        next_pending_id := db.next_pending_id + 1 }
      { res := .ok queuedMsg, db := db }

/-- api.py 161-209 `create_character`: in-group duplicate-name check, caller
resolution, group existence check, then immediate admin mutation or a queued
`character_add` row. -/
def Api.create_character (now today : Nat) (cookie : Option String)
    (character : CharacterCreate) (db0 : Db) : ApiOutcome (Sum CharacterRow String) :=
  if (db0.characters.find? (fun c =>
      c.group_id == character.group_id && c.name == character.name)).isSome then
    { res := .error (.http 400 "该分组下已存在同名角色"), db := db0 }
  else
    match resolve_caller now today cookie db0 with
    | .error e => { res := .error e, db := db0 }
    | .ok (ctx, db) =>
      if (db.groups.find? (fun g => g.id == character.group_id)).isNone then
        { res := .error (.http 400 "选中的分组不存在"), db := db0 }
      else if ctx.is_admin then
        let (row, s) := CharacterService.create_character character (DbSession.start db)
        { res := .ok (.inl row), db := s.cur }
      else
        let row : PendingRow := {
          id := db.next_pending_id,
          request_type := "character_add",
          user_id := ctx.user_id,
          guest_ip := ctx.guest_ip,
          image_data := some {
            name := some character.name,
            group_id := some character.group_id,
            description := character.description,
            nicknames := character.nicknames } }
        let db := { db with
          pending_requests := db.pending_requests ++ [row],
          next_pending_id := db.next_pending_id + 1 }
        { res := .ok (.inr queuedMsg), db := db }

/-- api.py 226-270 `update_character`: caller resolution, existence checks,
then immediate admin update or a queued `character_edit` row with the set
fields plus the target id. -/
def Api.update_character (now today : Nat) (cookie : Option String)
    (character_id : Nat) (character_update : CharacterUpdate) (db0 : Db) :
    ApiOutcome (Sum (Option CharacterRow) String) :=
  match resolve_caller now today cookie db0 with
  | .error e => { res := .error e, db := db0 }
  | .ok (ctx, db) =>
    if (db.characters.find? (fun c => c.id == character_id)).isNone then
      { res := .error (.http 404 "Character not found"), db := db0 }
    else if truthyNat character_update.group_id &&
        (db.groups.find? (fun g => some g.id == character_update.group_id)).isNone then
      { res := .error (.http 400 "选中的分组不存在"), db := db0 }
    else if ctx.is_admin then
      let (c, s) := CharacterService.update_character character_id character_update
        (DbSession.start db)
      { res := .ok (.inl c), db := s.cur }
    else
      let row : PendingRow := {
        id := db.next_pending_id,
        request_type := "character_edit",
        user_id := ctx.user_id,
        guest_ip := ctx.guest_ip,
        image_data := some {
          name := character_update.name,
          group_id := character_update.group_id,
          description := character_update.description,
          nicknames := character_update.nicknames,
          character_id := some character_id } }
      let db := { db with
        pending_requests := db.pending_requests ++ [row],
        next_pending_id := db.next_pending_id + 1 }
      { res := .ok (.inr queuedMsg), db := db }

/-- api.py 272-313 `delete_character`: caller resolution, existence check,
then immediate admin cascade delete or a queued `character_delete` row. -/
def Api.delete_character (now today : Nat) (cookie : Option String)
    (character_id : Nat) (db0 : Db) : ApiOutcome String :=
  match resolve_caller now today cookie db0 with
  | .error e => { res := .error e, db := db0 }
  | .ok (ctx, db) =>
    if (db.characters.find? (fun c => c.id == character_id)).isNone then
      { res := .error (.http 404 "Character not found"), db := db0 }
    else if ctx.is_admin then
      match CharacterService.delete_character character_id (DbSession.start db) with
      | (false, _) => { res := .error (.http 404 "Character not found"), db := db0 }
      | (true, s) => { res := .ok "Character deleted successfully", db := s.cur }
    else
      let row : PendingRow := {
        id := db.next_pending_id,
        request_type := "character_delete",
        user_id := ctx.user_id,
        guest_ip := ctx.guest_ip,
        image_data := some { character_id := some character_id } }
      let db := { db with
        pending_requests := db.pending_requests ++ [row],
        next_pending_id := db.next_pending_id + 1 }
      { res := .ok queuedMsg, db := db }

/-- api.py 506-570 `update_image`: caller resolution, image existence check,
character-id validation (the interpolated missing-id detail is elided), then
immediate admin update or a queued `edit` row. -/
def Api.update_image (now today : Nat) (cookie : Option String) (image_id : String)
    (image_update : ImageUpdate) (db0 : Db) : ApiOutcome (Sum ImageRow String) :=
  match resolve_caller now today cookie db0 with
  | .error e => { res := .error e, db := db0 }
  | .ok (ctx, db) =>
    let badChars : Bool :=
      match image_update.character_ids with
      | some cids =>
        !cids.isEmpty &&
          (db.characters.filter (fun c => cids.contains c.id)).length != cids.length
      | none => false
    if (db.images.find? (fun i => i.image_id == image_id)).isNone then
      { res := .error (.http 404 "Image not found"), db := db0 }
    else if badChars then
      { res := .error (.http 400 "选中的某些角色不存在"), db := db0 }
    else if ctx.is_admin then
      match ImageService.update_image image_id image_update (DbSession.start db) with
      | (none, _) => { res := .error (.http 404 "Image not found"), db := db0 }
      | (some i, s) => { res := .ok (.inl i), db := s.cur }
    else
      let row : PendingRow := {
        id := db.next_pending_id,
        request_type := "edit",
        user_id := ctx.user_id,
        guest_ip := ctx.guest_ip,
        image_id := some image_id,
        image_data := some {
          pid := image_update.pid,
          description := image_update.description,
          character_ids := image_update.character_ids } }
      let db := { db with
        pending_requests := db.pending_requests ++ [row],
        next_pending_id := db.next_pending_id + 1 }
      { res := .ok (.inr queuedMsg), db := db }

/-- api.py 572-616 `delete_image`: caller resolution, existence check, then
immediate admin deletion of row and file, or a queued `delete` row carrying
only the target image id. -/
def Api.delete_image (now today : Nat) (cookie : Option String) (image_id : String)
    (db0 : Db) (fs0 : Fs) : ApiFsOutcome String :=
  match resolve_caller now today cookie db0 with
  | .error e => { res := .error e, db := db0, fs := fs0 }
  | .ok (ctx, db) =>
    if (db.images.find? (fun i => i.image_id == image_id)).isNone then
      { res := .error (.http 404 "Image not found"), db := db0, fs := fs0 }
    else if ctx.is_admin then
      match ImageService.delete_image image_id (DbSession.start db) fs0 with
      | (false, _, _) => { res := .error (.http 404 "Image not found"), db := db0, fs := fs0 }
      | (true, s, fs) => { res := .ok "Image deleted successfully", db := s.cur, fs := fs }
    else
      let row : PendingRow := {
        id := db.next_pending_id,
        request_type := "delete",
        user_id := ctx.user_id,
        guest_ip := ctx.guest_ip,
        image_id := some image_id }
      let db := { db with
        pending_requests := db.pending_requests ++ [row],
        next_pending_id := db.next_pending_id + 1 }
      { res := .ok queuedMsg, db := db, fs := fs0 }

/-- schemas.py `UploadImageResponse`. -/
structure UploadImageResponse where
  image_id : String
  message : String
deriving Repr, DecidableEq

/-- The image extensions upload endpoints accept. -/
def allowedExtensions : List String := ["jpg", "jpeg", "png", "webp", "gif", "bmp"]

/-- api.py 619-786 `upload_single_image`.  `character_id_list` is the parsed
and deduplicated id list, `group_id` the parsed optional group id (the JSON
and int parsing itself is outside this model), `tmp_name` the
`NamedTemporaryFile` path the admin branch writes, `unique_filename` the
uuid-based quarantine name the non-admin branch generates, `fresh_image_id`
the unique id `create_image`'s loop settles on.  An admin caller gets the
image created immediately plus (when they have a user id) an auto-approved
bookkeeping request row crediting them; everyone else gets the blob
quarantined and a pending `add` row. -/
def Api.upload_single_image (now today : Nat) (cookie : Option String)
    (filename : String) (character_id_list : List Nat) (group_id : Option Nat)
    (pid description : Option String) (fresh_image_id tmp_name unique_filename : String)
    (db0 : Db) (fs0 : Fs) : ApiFsOutcome UploadImageResponse :=
  let file_extension := (lastDotPart filename).toLower
  if !(allowedExtensions.contains file_extension) then
    { res := .error (.http 400 "Unsupported file type"), db := db0, fs := fs0 }
  else
    match resolve_caller now today cookie db0 with
    | .error e => { res := .error e, db := db0, fs := fs0 }
    | .ok (ctx, db) =>
      if ctx.is_admin then
        let fs := fs0.add tmp_name
        let image_create : ImageCreate := {
          character_ids := character_id_list,
          pid := pid,
          description := description }
        let (image, s, fs) := ImageService.create_image fresh_image_id image_create
          filename file_extension (DbSession.start db) fs
        let s :=
          if truthyNat ctx.user_id then
            let row : PendingRow := {
              id := s.cur.next_pending_id,
              request_type := "add",
              status := RequestStatus.APPROVED,
              user_id := ctx.user_id,
              image_id := some image.image_id,
              image_data := some {
                character_ids := some character_id_list,
                group_id := group_id,
                pid := pid,
                description := description },
              reviewed_at := some now,
              reviewed_by := ctx.user_id }
            ({ s with cur := { s.cur with
              pending_requests := s.cur.pending_requests ++ [row],
              next_pending_id := s.cur.next_pending_id + 1 } }).commit
          else s
        let fs := fs.remove tmp_name
        { res := .ok { image_id := image.image_id, message := "Image uploaded successfully" },
          db := s.cur, fs := fs }
      else
        let badGroup : Bool :=
          match group_id with
          | some gid => (db.groups.find? (fun g => g.id == gid)).isNone
          | none => false
        if !character_id_list.isEmpty &&
            (db.characters.filter (fun c => character_id_list.contains c.id)).length !=
              character_id_list.length then
          { res := .error (.http 400 "选中的某些角色不存在，无效ID"), db := db0, fs := fs0 }
        else if badGroup then
          { res := .error (.http 400 "选中的分组不存在"), db := db0, fs := fs0 }
        else
          let pending_file_path := "resource/pending/" ++ unique_filename
          let fs := fs0.add pending_file_path
          let row : PendingRow := {
            id := db.next_pending_id,
            request_type := "add",
            user_id := ctx.user_id,
            guest_ip := ctx.guest_ip,
            image_data := some {
              character_ids := some character_id_list,
              group_id := group_id,
              pid := pid,
              description := description },
            temp_file_path := some pending_file_path,
            original_filename := some filename }
          let db := { db with
            pending_requests := db.pending_requests ++ [row],
            next_pending_id := db.next_pending_id + 1 }
          { res := .ok { image_id := "pending", message := queuedMsg }, db := db, fs := fs }

/-- api.py 817-893 `upload_temp_image`: promote a file already sitting in
the temp directory into the store.  Only an admin with a user id gets the
auto-approved bookkeeping row; the image itself is created for any caller. -/
def Api.upload_temp_image (now : Nat) (cookie : Option String)
    (filename : String) (character_ids : List Nat) (pid description : Option String)
    (fresh_image_id : String) (db0 : Db) (fs0 : Fs) : ApiFsOutcome UploadImageResponse :=
  let image_path := "resource/temp/" ++ filename
  if !(fs0.contains image_path) then
    { res := .error (.http 404 "Image not found in temp directory"), db := db0, fs := fs0 }
  else
    let file_extension := (lastDotPart filename).toLower
    if !(allowedExtensions.contains file_extension) then
      { res := .error (.http 400 "Unsupported file type"), db := db0, fs := fs0 }
    else
      let (sessionView, sessions) := get_current_session now cookie db0.user_sessions
      let db := { db0 with user_sessions := sessions }
      let ctx : CallerCtx :=
        match sessionView with
        | some sv =>
          if sv.is_guest then { is_admin := false, user_id := none, guest_ip := none }
          else
            match db.users.find? (fun u => some u.id == sv.user_id) with
            | some u => {
                is_admin := u.role == "root" || u.role == "admin",
                user_id := some u.id,
                guest_ip := none }
            | none => { is_admin := false, user_id := none, guest_ip := none }
        | none => { is_admin := false, user_id := none, guest_ip := none }
      if !character_ids.isEmpty &&
          (db.characters.filter (fun c => character_ids.contains c.id)).length !=
            character_ids.length then
        { res := .error (.http 400 "选中的某些角色不存在"), db := db0, fs := fs0 }
      else
        let image_create : ImageCreate := {
          character_ids := character_ids,
          pid := pid,
          description := description }
        let (image, s, fs) := ImageService.create_image fresh_image_id image_create
          filename file_extension (DbSession.start db) fs0
        let s :=
          if ctx.is_admin && truthyNat ctx.user_id then
            let row : PendingRow := {
              id := s.cur.next_pending_id,
              request_type := "add",
              status := RequestStatus.APPROVED,
              user_id := ctx.user_id,
              image_id := some image.image_id,
              image_data := some {
                character_ids := some character_ids,
                group_id := none,
                pid := pid,
                description := description },
              reviewed_at := some now,
              reviewed_by := ctx.user_id }
            ({ s with cur := { s.cur with
              pending_requests := s.cur.pending_requests ++ [row],
              next_pending_id := s.cur.next_pending_id + 1 } }).commit
          else s
        let fs := fs.remove image_path
        let resp : UploadImageResponse := {
          image_id := image.image_id,
          message := "Image uploaded successfully from temp directory" }
        { res := .ok resp, db := s.cur, fs := fs }

/-! ## Concrete fixtures used to evaluate the embedding -/

/-- A pending image-delete request targeting image `AB12CD34EF`. -/
def exampleDeleteRow : PendingRow := {
  id := 1,
  request_type := "delete",
  image_id := some "AB12CD34EF" }

/-- A catalog holding one image and the pending delete request against it. -/
def exampleDeleteDb : Db := {
  images := [{
    image_id := "AB12CD34EF",
    pid := none,
    description := none,
    original_filename := some "a.png",
    file_extension := "png",
    file_path := "resource/store/AB12CD34EF.png",
    character_ids := [] }],
  pending_requests := [exampleDeleteRow],
  next_pending_id := 2 }

/-- The store containing the backing file of image `AB12CD34EF`. -/
def exampleDeleteFs : Fs := ["resource/store/AB12CD34EF.png"]

/-- A pending group-add request proposing the group name `Acolytes`. -/
def exampleGroupAddRow : PendingRow := {
  id := 1,
  request_type := "group_add",
  user_id := some 7,
  image_data := some { name := some "Acolytes" } }

/-- A catalog with no groups and the pending group-add request. -/
def exampleGroupAddDb : Db := {
  pending_requests := [exampleGroupAddRow],
  next_pending_id := 2 }

/-- The outcome of approving the pending group-add request. -/
def exampleGroupAddRun : HandleOutcome :=
  handle_pending_request 9 100 "" 1 { action := "approve" } exampleGroupAddDb []

/-- A pending image-edit request whose target image has vanished. -/
def exampleEditGoneRow : PendingRow := {
  id := 1,
  request_type := "edit",
  user_id := some 7,
  image_id := some "ZZZZZZZZZZ",
  image_data := some { description := some "new" } }

/-- A catalog with no images and the stale edit request. -/
def exampleEditGoneDb : Db := {
  pending_requests := [exampleEditGoneRow],
  next_pending_id := 2 }

/-- A request that has already been approved. -/
def exampleApprovedRow : PendingRow := {
  id := 1,
  request_type := "group_add",
  status := RequestStatus.APPROVED,
  user_id := some 7,
  image_data := some { name := some "Dawn" } }

/-- A catalog holding only the already-approved request. -/
def exampleApprovedDb : Db := {
  pending_requests := [exampleApprovedRow],
  next_pending_id := 2 }

/-- A pending group-add request whose proposed name is taken by now. -/
def exampleDupGroupDb : Db := {
  groups := [{ id := 1, name := "Acolytes", description := none }],
  next_group_id := 2,
  pending_requests := [exampleGroupAddRow],
  next_pending_id := 2 }

/-- A pending character-add request for name `Vex` in group 1. -/
def exampleCharAddRow : PendingRow := {
  id := 2,
  request_type := "character_add",
  user_id := some 7,
  image_data := some { name := some "Vex", group_id := some 1 } }

/-- A catalog where `Vex` already exists in group 1 (say, because a first
identical request was approved a moment ago) plus the second pending
character-add request. -/
def exampleDupCharDb : Db := {
  groups := [{ id := 1, name := "Acolytes", description := none }],
  next_group_id := 2,
  characters := [{ id := 1, name := "Vex", group_id := 1, description := none }],
  next_character_id := 2,
  pending_requests := [exampleCharAddRow],
  next_pending_id := 3 }

/-- A user session expiring at time 50. -/
def exampleSessionRow : UserSessionRow := {
  session_id := "tok",
  user_id := some 3,
  guest_ip := none,
  is_guest := "false",
  created_at := 0,
  last_activity := 0,
  expires_at := 50 }

/-- A session table holding only that session. -/
def exampleSessions : List UserSessionRow := [exampleSessionRow]

/-- The queued row an anonymous (cookieless) group submission produces. -/
def exampleAnonRun : ApiOutcome (Sum GroupRow String) :=
  Api.create_group 0 0 none { name := "Gala" } {}

/-- The row the anonymous submission of `exampleAnonRun` queues: neither a
user id nor a guest ip is attached. -/
def exampleQueuedRow : PendingRow := {
  id := 1,
  request_type := "group_add",
  user_id := none,
  guest_ip := none,
  image_data := some { name := some "Gala" } }

/-- An administrator (user 1) with a live session `s1`. -/
def exampleAdminDb : Db := {
  users := [{ id := 1, qq_number := "10001", role := "admin" }],
  user_sessions := [{
    session_id := "s1",
    user_id := some 1,
    guest_ip := none,
    is_guest := "false",
    created_at := 0,
    last_activity := 0,
    expires_at := 1000 }] }

/-- The admin's direct group creation. -/
def exampleAdminCreateRun : ApiOutcome (Sum GroupRow String) :=
  Api.create_group 5 0 (some "s1") { name := "Gala" } exampleAdminDb

/-! ## Auxiliary list lemmas -/

theorem find?_decomp {α : Type} {p : α → Bool} (f : α → α) :
    ∀ {l : List α} {r : α}, l.find? p = some r →
      ∃ l₁ l₂, l = l₁ ++ r :: l₂ ∧ (∀ x ∈ l₁, p x = false) ∧ p r = true ∧
        updateFirst p f l = l₁ ++ f r :: l₂ ∧ l.eraseP p = l₁ ++ l₂ := by
  intro l
  induction l with
  | nil => intro r h; simp [List.find?] at h
  | cons a t ih =>
    intro r h
    by_cases ha : p a
    · rw [List.find?_cons_of_pos _ ha] at h
      obtain rfl : a = r := by simpa using h
      refine ⟨[], t, by simp, by simp, ha, ?_, ?_⟩
      · simp [updateFirst, ha]
      · simp [List.eraseP_cons, ha]
    · rw [List.find?_cons_of_neg _ ha] at h
      obtain ⟨l₁, l₂, hl, hl₁, hr, hu, he⟩ := ih h
      refine ⟨a :: l₁, l₂, by simp [hl], ?_, hr, ?_, ?_⟩
      · intro x hx
        rcases List.mem_cons.mp hx with rfl | hx
        · simpa using ha
        · exact hl₁ x hx
      · simp [updateFirst, ha, hu]
      · simp [List.eraseP_cons, ha, he]

theorem find?_updateFirst_of_pres {α : Type} {p : α → Bool} {f : α → α}
    (hf : ∀ a, p (f a) = p a) {l : List α} {r : α} (h : l.find? p = some r) :
    (updateFirst p f l).find? p = some (f r) := by
  obtain ⟨l₁, l₂, _, hl₁, hr, hu, _⟩ := find?_decomp f h
  rw [hu, List.find?_append]
  have h₁ : l₁.find? p = none := by
    rw [List.find?_eq_none]
    intro x hx
    simp [hl₁ x hx]
  rw [h₁, List.find?_cons_of_pos]
  · rfl
  · rw [hf]; exact hr

theorem find?_eraseP_of_unique {α : Type} {p : α → Bool} {l : List α} {r : α}
    (h : l.find? p = some r) (hcount : (l.filter p).length ≤ 1) :
    (l.eraseP p).find? p = none := by
  obtain ⟨l₁, l₂, hl, hl₁, hr, _, he⟩ := find?_decomp id h
  have hfil₁ : l₁.filter p = [] := by
    rw [List.filter_eq_nil_iff]
    intro x hx
    simp [hl₁ x hx]
  have hfil₂ : l₂.filter p = [] := by
    subst hl
    rw [List.filter_append, hfil₁, List.filter_cons_of_pos hr] at hcount
    simp at hcount
    rw [List.filter_eq_nil_iff]
    intro x hx
    simp [hcount x hx]
  rw [he, List.find?_eq_none]
  intro x hx
  rcases List.mem_append.mp hx with hx | hx
  · simp [hl₁ x hx]
  · have := List.filter_eq_nil_iff.mp hfil₂ x hx
    simpa using this

theorem updateFirst_append_singleton {α : Type} {p : α → Bool} {f : α → α}
    {l : List α} (h : l.find? p = none) (x : α) (hx : p x = true) :
    updateFirst p f (l ++ [x]) = l ++ [f x] := by
  induction l with
  | nil => simp [updateFirst, hx]
  | cons a t ih =>
    have ha : p a = false := by
      have := List.find?_eq_none.mp h a (by simp)
      simpa using this
    have ht : t.find? p = none := by
      rw [List.find?_cons_of_neg _ (by simp [ha])] at h
      exact h
    simp [updateFirst, ha, ih ht]

theorem mem_updateFirst {α : Type} {p : α → Bool} {f : α → α} :
    ∀ {l : List α} {a : α}, a ∈ updateFirst p f l → a ∈ l ∨ ∃ b ∈ l, a = f b := by
  intro l
  induction l with
  | nil => intro a h; simp [updateFirst] at h
  | cons x t ih =>
    intro a h
    simp only [updateFirst] at h
    by_cases hx : p x
    · simp [hx] at h
      rcases h with rfl | h
      · exact .inr ⟨x, by simp, rfl⟩
      · exact .inl (by simp [h])
    · simp [hx] at h
      rcases h with rfl | h
      · exact .inl (by simp)
      · rcases ih h with h | ⟨b, hb, rfl⟩
        · exact .inl (by simp [h])
        · exact .inr ⟨b, by simp [hb], rfl⟩

/-! ## Service facts: failed lookups leave the session untouched, and no
catalog service ever writes the pending-request table -/

theorem update_group_none {gid : Nat} {u : GroupUpdate} {s x : DbSession}
    (h : GroupService.update_group gid u s = (none, x)) : x = s := by
  unfold GroupService.update_group at h
  split at h <;> simp_all

theorem delete_group_false {gid : Nat} {s x : DbSession}
    (h : GroupService.delete_group gid s = (false, x)) : x = s := by
  unfold GroupService.delete_group at h
  split at h <;> simp_all

theorem update_character_none {cid : Nat} {u : CharacterUpdate} {s x : DbSession}
    (h : CharacterService.update_character cid u s = (none, x)) : x = s := by
  unfold CharacterService.update_character at h
  split at h
  · simp_all
  · split at h <;> simp_all

theorem delete_character_false {cid : Nat} {s x : DbSession}
    (h : CharacterService.delete_character cid s = (false, x)) : x = s := by
  unfold CharacterService.delete_character at h
  split at h <;> simp_all

theorem update_image_none {iid : String} {u : ImageUpdate} {s x : DbSession}
    (h : ImageService.update_image iid u s = (none, x)) : x = s := by
  unfold ImageService.update_image at h
  split at h <;> simp_all

theorem delete_image_false {iid : String} {s x : DbSession} {fs y : Fs}
    (h : ImageService.delete_image iid s fs = (false, x, y)) : x = s ∧ y = fs := by
  unfold ImageService.delete_image at h
  split at h <;> simp_all

theorem create_group_pending (g : GroupCreate) (s : DbSession) :
    (GroupService.create_group g s).2.cur.pending_requests = s.cur.pending_requests := rfl

theorem update_group_pending (gid : Nat) (u : GroupUpdate) (s : DbSession) :
    (GroupService.update_group gid u s).2.cur.pending_requests = s.cur.pending_requests := by
  unfold GroupService.update_group
  split <;> rfl

theorem delete_group_pending (gid : Nat) (s : DbSession) :
    (GroupService.delete_group gid s).2.cur.pending_requests = s.cur.pending_requests := by
  unfold GroupService.delete_group
  split <;> rfl

theorem create_character_pending (c : CharacterCreate) (s : DbSession) :
    (CharacterService.create_character c s).2.cur.pending_requests = s.cur.pending_requests := by
  unfold CharacterService.create_character
  dsimp only
  split <;> rfl

theorem update_character_pending (cid : Nat) (u : CharacterUpdate) (s : DbSession) :
    (CharacterService.update_character cid u s).2.cur.pending_requests = s.cur.pending_requests := by
  unfold CharacterService.update_character
  split
  · rfl
  · split <;> rfl

theorem delete_character_pending (cid : Nat) (s : DbSession) :
    (CharacterService.delete_character cid s).2.cur.pending_requests = s.cur.pending_requests := by
  unfold CharacterService.delete_character
  split <;> rfl

theorem create_image_pending (iid : String) (ic : ImageCreate) (ofn ext : String)
    (s : DbSession) (fs : Fs) :
    (ImageService.create_image iid ic ofn ext s fs).2.1.cur.pending_requests =
      s.cur.pending_requests := rfl

theorem update_image_pending (iid : String) (u : ImageUpdate) (s : DbSession) :
    (ImageService.update_image iid u s).2.cur.pending_requests = s.cur.pending_requests := by
  unfold ImageService.update_image
  split <;> rfl

theorem delete_image_pending (iid : String) (s : DbSession) (fs : Fs) :
    (ImageService.delete_image iid s fs).2.1.cur.pending_requests = s.cur.pending_requests := by
  unfold ImageService.delete_image
  split <;> rfl

theorem create_group_state_pending {g : GroupCreate} {s : DbSession} {v : GroupRow}
    {x : DbSession} (h : GroupService.create_group g s = (v, x)) :
    x.cur.pending_requests = s.cur.pending_requests := by
  have hp := create_group_pending g s
  rw [h] at hp
  exact hp

theorem update_group_state_pending {gid : Nat} {u : GroupUpdate} {s : DbSession}
    {v : Option GroupRow} {x : DbSession} (h : GroupService.update_group gid u s = (v, x)) :
    x.cur.pending_requests = s.cur.pending_requests := by
  have hp := update_group_pending gid u s
  rw [h] at hp
  exact hp

theorem delete_group_state_pending {gid : Nat} {s : DbSession} {v : Bool}
    {x : DbSession} (h : GroupService.delete_group gid s = (v, x)) :
    x.cur.pending_requests = s.cur.pending_requests := by
  have hp := delete_group_pending gid s
  rw [h] at hp
  exact hp

theorem create_character_state_pending {c : CharacterCreate} {s : DbSession}
    {v : CharacterRow} {x : DbSession} (h : CharacterService.create_character c s = (v, x)) :
    x.cur.pending_requests = s.cur.pending_requests := by
  have hp := create_character_pending c s
  rw [h] at hp
  exact hp

theorem update_character_state_pending {cid : Nat} {u : CharacterUpdate} {s : DbSession}
    {v : Option CharacterRow} {x : DbSession}
    (h : CharacterService.update_character cid u s = (v, x)) :
    x.cur.pending_requests = s.cur.pending_requests := by
  have hp := update_character_pending cid u s
  rw [h] at hp
  exact hp

theorem delete_character_state_pending {cid : Nat} {s : DbSession} {v : Bool}
    {x : DbSession} (h : CharacterService.delete_character cid s = (v, x)) :
    x.cur.pending_requests = s.cur.pending_requests := by
  have hp := delete_character_pending cid s
  rw [h] at hp
  exact hp

theorem create_image_state_pending {iid : String} {ic : ImageCreate} {ofn ext : String}
    {s : DbSession} {fs : Fs} {v : ImageRow} {x : DbSession} {y : Fs}
    (h : ImageService.create_image iid ic ofn ext s fs = (v, x, y)) :
    x.cur.pending_requests = s.cur.pending_requests := by
  have hp := create_image_pending iid ic ofn ext s fs
  rw [h] at hp
  exact hp

theorem update_image_state_pending {iid : String} {u : ImageUpdate} {s : DbSession}
    {v : Option ImageRow} {x : DbSession} (h : ImageService.update_image iid u s = (v, x)) :
    x.cur.pending_requests = s.cur.pending_requests := by
  have hp := update_image_pending iid u s
  rw [h] at hp
  exact hp

theorem delete_image_state_pending {iid : String} {s : DbSession} {fs : Fs} {v : Bool}
    {x : DbSession} {y : Fs} (h : ImageService.delete_image iid s fs = (v, x, y)) :
    x.cur.pending_requests = s.cur.pending_requests := by
  have hp := delete_image_pending iid s fs
  rw [h] at hp
  exact hp

/-! ## Branch facts: a raising approve branch leaves session and files
exactly as it found them, and no approve branch touches the pending table -/

theorem approve_add_error {fid : String} {req : PendingRow} {s : DbSession} {fs : Fs}
    {e : HErr} {s' : DbSession} {fs' : Fs}
    (h : approve_add fid req s fs = .error (e, s', fs')) : s' = s ∧ fs' = fs := by
  unfold approve_add at h
  dsimp only at h
  repeat' split at h
  all_goals simp_all

theorem approve_edit_error {req : PendingRow} {s : DbSession} {fs : Fs}
    {e : HErr} {s' : DbSession} {fs' : Fs}
    (h : approve_edit req s fs = .error (e, s', fs')) : s' = s ∧ fs' = fs := by
  unfold approve_edit at h
  dsimp only at h
  repeat' split at h
  all_goals try simp_all
  all_goals first
    | exact ⟨update_image_none (by assumption), rfl⟩
    | exact update_image_none (by assumption)

theorem approve_group_add_error {req : PendingRow} {s : DbSession} {fs : Fs}
    {e : HErr} {s' : DbSession} {fs' : Fs}
    (h : approve_group_add req s fs = .error (e, s', fs')) : s' = s ∧ fs' = fs := by
  unfold approve_group_add at h
  dsimp only at h
  repeat' split at h
  all_goals simp_all

theorem approve_group_edit_error {req : PendingRow} {s : DbSession} {fs : Fs}
    {e : HErr} {s' : DbSession} {fs' : Fs}
    (h : approve_group_edit req s fs = .error (e, s', fs')) : s' = s ∧ fs' = fs := by
  unfold approve_group_edit at h
  dsimp only at h
  repeat' split at h
  all_goals try simp_all
  all_goals exact update_group_none (by assumption)

theorem approve_group_delete_error {req : PendingRow} {s : DbSession} {fs : Fs}
    {e : HErr} {s' : DbSession} {fs' : Fs}
    (h : approve_group_delete req s fs = .error (e, s', fs')) : s' = s ∧ fs' = fs := by
  unfold approve_group_delete at h
  dsimp only at h
  repeat' split at h
  all_goals try simp_all
  all_goals exact delete_group_false (by assumption)

theorem approve_character_add_error {req : PendingRow} {s : DbSession} {fs : Fs}
    {e : HErr} {s' : DbSession} {fs' : Fs}
    (h : approve_character_add req s fs = .error (e, s', fs')) : s' = s ∧ fs' = fs := by
  unfold approve_character_add at h
  dsimp only at h
  repeat' split at h
  all_goals simp_all

theorem approve_character_edit_error {req : PendingRow} {s : DbSession} {fs : Fs}
    {e : HErr} {s' : DbSession} {fs' : Fs}
    (h : approve_character_edit req s fs = .error (e, s', fs')) : s' = s ∧ fs' = fs := by
  unfold approve_character_edit at h
  dsimp only at h
  repeat' split at h
  all_goals try simp_all
  all_goals exact update_character_none (by assumption)

theorem approve_character_delete_error {req : PendingRow} {s : DbSession} {fs : Fs}
    {e : HErr} {s' : DbSession} {fs' : Fs}
    (h : approve_character_delete req s fs = .error (e, s', fs')) : s' = s ∧ fs' = fs := by
  unfold approve_character_delete at h
  dsimp only at h
  repeat' split at h
  all_goals try simp_all
  all_goals exact delete_character_false (by assumption)

theorem approve_branch_error {fid : String} {req : PendingRow} {s : DbSession} {fs : Fs}
    {e : HErr} {s' : DbSession} {fs' : Fs}
    (h : approve_branch fid req s fs = .error (e, s', fs')) : s' = s ∧ fs' = fs := by
  unfold approve_branch at h
  repeat' split at h
  · exact approve_add_error h
  · exact approve_edit_error h
  · exact approve_group_add_error h
  · exact approve_group_edit_error h
  · exact approve_group_delete_error h
  · exact approve_character_add_error h
  · exact approve_character_edit_error h
  · exact approve_character_delete_error h
  · simp at h

theorem approve_add_ok {fid : String} {req : PendingRow} {s : DbSession} {fs : Fs}
    {s' : DbSession} {fs' : Fs} (h : approve_add fid req s fs = .ok (s', fs')) :
    s'.cur.pending_requests = s.cur.pending_requests := by
  unfold approve_add at h
  dsimp only at h
  repeat' split at h
  all_goals try simp_all
  all_goals try (obtain ⟨hseq, hfseq⟩ := h; subst hseq)
  all_goals first
    | exact create_image_state_pending (by assumption)
    | exact create_image_pending _ _ _ _ _ _

theorem approve_edit_ok {req : PendingRow} {s : DbSession} {fs : Fs}
    {s' : DbSession} {fs' : Fs} (h : approve_edit req s fs = .ok (s', fs')) :
    s'.cur.pending_requests = s.cur.pending_requests := by
  unfold approve_edit at h
  dsimp only at h
  repeat' split at h
  all_goals try simp_all
  all_goals try (obtain ⟨hseq, hfseq⟩ := h; subst hseq)
  all_goals first
    | exact update_image_state_pending (by assumption)
    | exact update_image_pending _ _ _

theorem approve_group_add_ok {req : PendingRow} {s : DbSession} {fs : Fs}
    {s' : DbSession} {fs' : Fs} (h : approve_group_add req s fs = .ok (s', fs')) :
    s'.cur.pending_requests = s.cur.pending_requests := by
  unfold approve_group_add at h
  dsimp only at h
  repeat' split at h
  all_goals try simp_all
  all_goals try (obtain ⟨hseq, hfseq⟩ := h; subst hseq)
  all_goals first
    | exact create_group_state_pending (by assumption)
    | exact create_group_pending _ _

theorem approve_group_edit_ok {req : PendingRow} {s : DbSession} {fs : Fs}
    {s' : DbSession} {fs' : Fs} (h : approve_group_edit req s fs = .ok (s', fs')) :
    s'.cur.pending_requests = s.cur.pending_requests := by
  unfold approve_group_edit at h
  dsimp only at h
  repeat' split at h
  all_goals try simp_all
  all_goals try (obtain ⟨hseq, hfseq⟩ := h; subst hseq)
  all_goals first
    | exact update_group_state_pending (by assumption)
    | exact update_group_pending _ _ _

theorem approve_group_delete_ok {req : PendingRow} {s : DbSession} {fs : Fs}
    {s' : DbSession} {fs' : Fs} (h : approve_group_delete req s fs = .ok (s', fs')) :
    s'.cur.pending_requests = s.cur.pending_requests := by
  unfold approve_group_delete at h
  dsimp only at h
  repeat' split at h
  all_goals try simp_all
  all_goals try (obtain ⟨hseq, hfseq⟩ := h; subst hseq)
  all_goals first
    | exact delete_group_state_pending (by assumption)
    | exact delete_group_pending _ _

theorem approve_character_add_ok {req : PendingRow} {s : DbSession} {fs : Fs}
    {s' : DbSession} {fs' : Fs} (h : approve_character_add req s fs = .ok (s', fs')) :
    s'.cur.pending_requests = s.cur.pending_requests := by
  unfold approve_character_add at h
  dsimp only at h
  repeat' split at h
  all_goals try simp_all
  all_goals try (obtain ⟨hseq, hfseq⟩ := h; subst hseq)
  all_goals first
    | exact create_character_state_pending (by assumption)
    | exact create_character_pending _ _

theorem approve_character_edit_ok {req : PendingRow} {s : DbSession} {fs : Fs}
    {s' : DbSession} {fs' : Fs} (h : approve_character_edit req s fs = .ok (s', fs')) :
    s'.cur.pending_requests = s.cur.pending_requests := by
  unfold approve_character_edit at h
  dsimp only at h
  repeat' split at h
  all_goals try simp_all
  all_goals try (obtain ⟨hseq, hfseq⟩ := h; subst hseq)
  all_goals first
    | exact update_character_state_pending (by assumption)
    | exact update_character_pending _ _ _

theorem approve_character_delete_ok {req : PendingRow} {s : DbSession} {fs : Fs}
    {s' : DbSession} {fs' : Fs} (h : approve_character_delete req s fs = .ok (s', fs')) :
    s'.cur.pending_requests = s.cur.pending_requests := by
  unfold approve_character_delete at h
  dsimp only at h
  repeat' split at h
  all_goals try simp_all
  all_goals try (obtain ⟨hseq, hfseq⟩ := h; subst hseq)
  all_goals first
    | exact delete_character_state_pending (by assumption)
    | exact delete_character_pending _ _

theorem approve_branch_ok {fid : String} {req : PendingRow} {s : DbSession} {fs : Fs}
    {s' : DbSession} {fs' : Fs} (h : approve_branch fid req s fs = .ok (s', fs')) :
    s'.cur.pending_requests = s.cur.pending_requests := by
  unfold approve_branch at h
  repeat' split at h
  · exact approve_add_ok h
  · exact approve_edit_ok h
  · exact approve_group_add_ok h
  · exact approve_group_edit_ok h
  · exact approve_group_delete_ok h
  · exact approve_character_add_ok h
  · exact approve_character_edit_ok h
  · exact approve_character_delete_ok h
  · simp at h
    rw [h.1]

/-! ## Handler facts: a raising decision persists nothing; a successful
decision stamps the looked-up row as approved or rejected -/

theorem handle_error_unchanged {a n : Nat} {fid : String} {rid : Nat}
    {act : PendingRequestAction} {db0 : Db} {fs0 : Fs} {e : HErr}
    (h : (handle_pending_request a n fid rid act db0 fs0).res = .error e) :
    (handle_pending_request a n fid rid act db0 fs0).db = db0 ∧
    (handle_pending_request a n fid rid act db0 fs0).commits = [] ∧
    (handle_pending_request a n fid rid act db0 fs0).fs = fs0 := by
  cases hfind : db0.pending_requests.find? (fun r => r.id == rid) with
  | none =>
    simp [handle_pending_request, hfind, raiseH, DbSession.start, DbSession.persisted]
  | some req =>
    by_cases hst : req.status = RequestStatus.PENDING
    · by_cases hact : act.action = "approve"
      · cases hbr : approve_branch fid req (DbSession.start db0) fs0 with
        | error tr =>
          obtain ⟨e', s', fs'⟩ := tr
          obtain ⟨hs, hfs⟩ := approve_branch_error hbr
          subst hs
          subst hfs
          simp only [DbSession.start] at hbr
          simp [handle_pending_request, hfind, hst, hact, hbr, raiseH,
            DbSession.start, DbSession.persisted]
        | ok pr =>
          obtain ⟨s', fs'⟩ := pr
          simp only [DbSession.start] at hbr
          simp [handle_pending_request, hfind, hst, hact, hbr, finishH, DbSession.start] at h
      · by_cases hrej : act.action = "reject"
        · simp [handle_pending_request, hfind, hst, hact, hrej, finishH] at h
        · simp [handle_pending_request, hfind, hst, hact, hrej, raiseH,
            DbSession.start, DbSession.persisted]
    · have hstb : (req.status != RequestStatus.PENDING) = true := by
        simp [bne_iff_ne, hst]
      simp [handle_pending_request, hfind, hstb, raiseH,
        DbSession.start, DbSession.persisted]

theorem handle_ok_find {a n : Nat} {fid : String} {rid : Nat}
    {act : PendingRequestAction} {db0 : Db} {fs0 : Fs} {m : String}
    (h : (handle_pending_request a n fid rid act db0 fs0).res = .ok m) :
    ∃ req st, db0.pending_requests.find? (fun r => r.id == rid) = some req ∧
      (st = RequestStatus.APPROVED ∨ st = RequestStatus.REJECTED) ∧
      (handle_pending_request a n fid rid act db0 fs0).db.pending_requests.find?
        (fun r => r.id == rid) =
        some { req with status := st, reviewed_at := some n, reviewed_by := some a } := by
  cases hfind : db0.pending_requests.find? (fun r => r.id == rid) with
  | none =>
    simp [handle_pending_request, hfind, raiseH, DbSession.start, DbSession.persisted] at h
  | some req =>
    by_cases hst : req.status = RequestStatus.PENDING
    · by_cases hact : act.action = "approve"
      · cases hbr : approve_branch fid req (DbSession.start db0) fs0 with
        | error tr =>
          obtain ⟨e', s', fs'⟩ := tr
          simp only [DbSession.start] at hbr
          simp [handle_pending_request, hfind, hst, hact, hbr, raiseH, DbSession.start] at h
        | ok pr =>
          obtain ⟨s', fs'⟩ := pr
          simp only [DbSession.start] at hbr
          have hpend : s'.cur.pending_requests = db0.pending_requests := approve_branch_ok hbr
          refine ⟨req, RequestStatus.APPROVED, rfl, Or.inl rfl, ?_⟩
          simp [handle_pending_request, hfind, hst, hact, hbr, finishH, DbSession.start,
            DbSession.commit, setStatusAndStamp, hpend]
          have := find?_updateFirst_of_pres (p := fun r => r.id == rid)
            (f := fun (r : PendingRow) => { r with status := RequestStatus.APPROVED, reviewed_at := some n, reviewed_by := some a })
            (fun r => rfl) hfind
          exact this
      · by_cases hrej : act.action = "reject"
        · refine ⟨req, RequestStatus.REJECTED, rfl, Or.inr rfl, ?_⟩
          simp [handle_pending_request, hfind, hst, hact, hrej, finishH, DbSession.start,
            DbSession.commit, setStatusAndStamp]
          have := find?_updateFirst_of_pres (p := fun r => r.id == rid)
            (f := fun (r : PendingRow) => { r with status := RequestStatus.REJECTED, reviewed_at := some n, reviewed_by := some a })
            (fun r => rfl) hfind
          exact this
        · simp [handle_pending_request, hfind, hst, hact, hrej, raiseH, DbSession.start] at h
    · have hstb : (req.status != RequestStatus.PENDING) = true := by
        simp [bne_iff_ne, hst]
      simp [handle_pending_request, hfind, hstb, raiseH, DbSession.start] at h

/-- A decision attempt on a request whose looked-up status is not `pending`
raises the already-handled conflict and persists nothing. -/
theorem handle_conflict {a n : Nat} {fid : String} {rid : Nat}
    {act : PendingRequestAction} {db0 : Db} {fs0 : Fs} {req : PendingRow}
    (hfind : db0.pending_requests.find? (fun r => r.id == rid) = some req)
    (hst : req.status ≠ RequestStatus.PENDING) :
    (handle_pending_request a n fid rid act db0 fs0).res = .error (.http 400 "请求已处理") ∧
    (handle_pending_request a n fid rid act db0 fs0).db = db0 ∧
    (handle_pending_request a n fid rid act db0 fs0).commits = [] ∧
    (handle_pending_request a n fid rid act db0 fs0).fs = fs0 := by
  have hstb : (req.status != RequestStatus.PENDING) = true := by
    simp [bne_iff_ne, hst]
  simp [handle_pending_request, hfind, hstb, raiseH, DbSession.start, DbSession.persisted]

/-- An unknown request id raises not-found and persists nothing. -/
theorem handle_not_found {a n : Nat} {fid : String} {rid : Nat}
    {act : PendingRequestAction} {db0 : Db} {fs0 : Fs}
    (hfind : db0.pending_requests.find? (fun r => r.id == rid) = none) :
    (handle_pending_request a n fid rid act db0 fs0).res = .error (.http 404 "请求不存在") ∧
    (handle_pending_request a n fid rid act db0 fs0).db = db0 ∧
    (handle_pending_request a n fid rid act db0 fs0).commits = [] ∧
    (handle_pending_request a n fid rid act db0 fs0).fs = fs0 := by
  simp [handle_pending_request, hfind, raiseH, DbSession.start, DbSession.persisted]

/-! ## Claim C9 -/

/-- C9: `restore_snapshot_if_needed` is a no-op without a snapshot file;
with a snapshot it copies snapshot to a missing live file, replaces a live
file whose digest differs, and leaves a live file with an equal digest
alone; hence `create_db_snapshot` followed by `restore_snapshot_if_needed`
on an untouched live file changes nothing. -/
theorem C9_snapshot_restore_semantics (fs : DbFiles) :
    (fs.snapshot = none → restore_snapshot_if_needed fs = fs) ∧
    (∀ snap, fs.snapshot = some snap → fs.live = none →
      restore_snapshot_if_needed fs = { fs with live := some snap }) ∧
    (∀ snap cur, fs.snapshot = some snap → fs.live = some cur →
      file_hash cur ≠ file_hash snap →
      restore_snapshot_if_needed fs = { fs with live := some snap }) ∧
    (∀ snap cur, fs.snapshot = some snap → fs.live = some cur →
      file_hash cur = file_hash snap →
      restore_snapshot_if_needed fs = fs) ∧
    (∀ cur, fs.live = some cur →
      restore_snapshot_if_needed (create_db_snapshot fs) = create_db_snapshot fs ∧
      (create_db_snapshot fs).live = some cur) := by
  refine ⟨?_, ?_, ?_, ?_, ?_⟩
  · intro hsnap
    simp [restore_snapshot_if_needed, hsnap]
  · intro snap hsnap hlive
    simp [restore_snapshot_if_needed, hsnap, hlive]
  · intro snap cur hsnap hlive hdiff
    simp [restore_snapshot_if_needed, hsnap, hlive, hdiff]
  · intro snap cur hsnap hlive heq
    simp [restore_snapshot_if_needed, hsnap, hlive, heq]
  · intro cur hlive
    constructor
    · simp [create_db_snapshot, restore_snapshot_if_needed, hlive]
    · simp [create_db_snapshot, hlive]

/-- C9 witness: a concrete live file round-trips through snapshot and
restore unchanged, and restore without a snapshot is a no-op. -/
theorem C9_witness :
    (restore_snapshot_if_needed
        (create_db_snapshot { live := some [1, 2, 3], snapshot := none }) =
      create_db_snapshot { live := some [1, 2, 3], snapshot := none }) ∧
    (create_db_snapshot { live := some [1, 2, 3], snapshot := none }).live = some [1, 2, 3] ∧
    restore_snapshot_if_needed { live := some [1, 2, 3], snapshot := none } =
      { live := some [1, 2, 3], snapshot := none } :=
  let h := C9_snapshot_restore_semantics { live := some [1, 2, 3], snapshot := none }
  ⟨(h.2.2.2.2 [1, 2, 3] rfl).1, (h.2.2.2.2 [1, 2, 3] rfl).2, h.1 rfl⟩

/-! ## Claim C10 -/

/-- C10: for every request to the guest-limit endpoint carrying a cookie,
the handler raises (it calls `get_session` without the database argument, a
`TypeError`); the only non-raising outcome is the 401 of the no-cookie
branch, and no quota answer is ever produced. -/
theorem C10_guest_limit_endpoint_raises (cookie : Option String) :
    (cookie = none → get_guest_limit cookie = .httpError 401 "未登录") ∧
    (∀ sid, cookie = some sid → get_guest_limit cookie = .raisesTypeError) ∧
    (∀ r d, get_guest_limit cookie ≠ .quotaAnswer r d) ∧
    get_guest_limit cookie ≠ .notGuestAnswer := by
  cases cookie <;> simp [get_guest_limit]

/-- C10 witness: the endpoint at concrete inputs. -/
theorem C10_witness :
    get_guest_limit none = .httpError 401 "未登录" ∧
    get_guest_limit (some "c0ffee") = .raisesTypeError ∧
    (∀ r d, get_guest_limit (some "c0ffee") ≠ .quotaAnswer r d) :=
  ⟨(C10_guest_limit_endpoint_raises none).1 rfl,
   (C10_guest_limit_endpoint_raises (some "c0ffee")).2.1 "c0ffee" rfl,
   (C10_guest_limit_endpoint_raises (some "c0ffee")).2.2.1⟩


theorem consume_n_closed {today : Nat} {ip : Option String} {limits : List GuestLimitRow}
    (hfind : limits.find? (guestLimitMatches ip today) = none) :
    ∀ k, 1 ≤ k →
      consume_n today ip k limits =
        (limits ++ [{ ip_address := ip, date := today, operation_count := min k GUEST_DAILY_LIMIT }],
         min k GUEST_DAILY_LIMIT) := by
  intro k
  induction k with
  | zero => intro h; omega
  | succ k ih =>
    intro _
    by_cases hk : 1 ≤ k
    · have hrec := ih hk
      have hmatch : guestLimitMatches ip today { ip_address := ip, date := today, operation_count := min k GUEST_DAILY_LIMIT } = true := by
        simp [guestLimitMatches]
      have hfind2 : (limits ++ [({ ip_address := ip, date := today, operation_count := min k GUEST_DAILY_LIMIT } : GuestLimitRow)]).find? (guestLimitMatches ip today) = some { ip_address := ip, date := today, operation_count := min k GUEST_DAILY_LIMIT } := by
        rw [List.find?_append, hfind]
        simp only [Option.none_or]
        rw [List.find?_cons_of_pos _ hmatch]
      by_cases hceil : GUEST_DAILY_LIMIT ≤ min k GUEST_DAILY_LIMIT
      · have h5 : min k GUEST_DAILY_LIMIT = GUEST_DAILY_LIMIT := by omega
        have h5' : min (k + 1) GUEST_DAILY_LIMIT = GUEST_DAILY_LIMIT := by
          simp only [GUEST_DAILY_LIMIT] at *
          omega
        simp only [consume_n, hrec]
        simp only [check_guest_limit, hfind2]
        rw [if_pos hceil]
        simp [h5, h5']
      · have hsum : min k GUEST_DAILY_LIMIT + 1 = min (k + 1) GUEST_DAILY_LIMIT := by
          simp only [GUEST_DAILY_LIMIT] at *
          omega
        simp only [consume_n, hrec]
        simp only [check_guest_limit, hfind2]
        rw [if_neg hceil]
        rw [updateFirst_append_singleton hfind _ hmatch]
        simp only [Prod.mk.injEq]
        constructor
        · rw [List.append_cancel_left_eq]
          simp [hsum]
        · simp only [GUEST_DAILY_LIMIT] at *
          simpa using hsum
    · have hk0 : k = 0 := by omega
      subst hk0
      simp [consume_n, check_guest_limit, hfind, GUEST_DAILY_LIMIT]

/-! ## Claim C4 -/

/-- C4: the guest-quota consume operation creates the `(ip, today)` row
lazily with count 1, refuses without mutating once the count has reached the
ceiling of 5, and otherwise increments; stored counts never exceed 5, and a
run of `k` attempts against a fresh key allows exactly `min k 5` of them —
in particular the sixth same-day attempt is refused. -/
theorem C4_guest_quota_ceiling (today : Nat) (ip : Option String)
    (limits : List GuestLimitRow) :
    (limits.find? (guestLimitMatches ip today) = none →
      check_guest_limit today limits ip =
        (true, limits ++ [{ ip_address := ip, date := today, operation_count := 1 }])) ∧
    (∀ r, limits.find? (guestLimitMatches ip today) = some r →
      GUEST_DAILY_LIMIT ≤ r.operation_count →
      check_guest_limit today limits ip = (false, limits)) ∧
    (∀ r, limits.find? (guestLimitMatches ip today) = some r →
      r.operation_count < GUEST_DAILY_LIMIT →
      check_guest_limit today limits ip =
        (true, updateFirst (guestLimitMatches ip today)
          (fun q => { q with operation_count := q.operation_count + 1 }) limits)) ∧
    ((∀ r ∈ limits, r.operation_count ≤ GUEST_DAILY_LIMIT) →
      ∀ r ∈ (check_guest_limit today limits ip).2, r.operation_count ≤ GUEST_DAILY_LIMIT) ∧
    (limits.find? (guestLimitMatches ip today) = none → ∀ k, 1 ≤ k →
      consume_n today ip k limits =
        (limits ++ [{ ip_address := ip, date := today, operation_count := min k GUEST_DAILY_LIMIT }],
         min k GUEST_DAILY_LIMIT)) := by
  refine ⟨?_, ?_, ?_, ?_, ?_⟩
  · intro hfind
    simp [check_guest_limit, hfind]
  · intro r hr hceil
    simp only [check_guest_limit, hr]
    rw [if_pos hceil]
  · intro r hr hlt
    simp only [check_guest_limit, hr]
    rw [if_neg (by omega)]
  · intro hb r hr
    cases hfind : limits.find? (guestLimitMatches ip today) with
    | none =>
      simp only [check_guest_limit, hfind] at hr
      rcases List.mem_append.mp hr with hmem | hmem
      · exact hb r hmem
      · have : r = { ip_address := ip, date := today, operation_count := 1 } := by
          simpa using hmem
        subst this
        simp [GUEST_DAILY_LIMIT]
    | some r0 =>
      by_cases hceil : GUEST_DAILY_LIMIT ≤ r0.operation_count
      · simp only [check_guest_limit, hfind] at hr
        rw [if_pos hceil] at hr
        exact hb r hr
      · simp only [check_guest_limit, hfind] at hr
        rw [if_neg hceil] at hr
        obtain ⟨l₁, l₂, hl, hl₁, hr0, hu, -⟩ :=
          find?_decomp (fun q => { q with operation_count := q.operation_count + 1 }) hfind
        rw [hu] at hr
        rcases List.mem_append.mp hr with hmem | hmem
        · exact hb r (hl ▸ List.mem_append.mpr (Or.inl hmem))
        · rcases List.mem_cons.mp hmem with rfl | hmem
          · have : r0.operation_count < GUEST_DAILY_LIMIT := by omega
            simp only [GUEST_DAILY_LIMIT] at *
            omega
          · exact hb r (hl ▸ List.mem_append.mpr (Or.inr (List.mem_cons.mpr (Or.inr hmem))))
  · intro hfind
    exact consume_n_closed hfind

/-- C4 witness: with a fresh key `(203.0.113.5, 2024-01-01)` six attempts
allow exactly five, the stored count is 5, and a further attempt at the full
row is refused without mutation. -/
theorem C4_witness :
    consume_n 20240101 (some "203.0.113.5") 6 [] =
      ([{ ip_address := some "203.0.113.5", date := 20240101, operation_count := 5 }], 5) ∧
    check_guest_limit 20240101
        [{ ip_address := some "203.0.113.5", date := 20240101, operation_count := 5 }]
        (some "203.0.113.5") =
      (false, [{ ip_address := some "203.0.113.5", date := 20240101, operation_count := 5 }]) := by
  constructor
  · have h := (C4_guest_quota_ceiling 20240101 (some "203.0.113.5") []).2.2.2.2 rfl 6 (by decide)
    simpa [GUEST_DAILY_LIMIT] using h
  · exact (C4_guest_quota_ceiling 20240101 (some "203.0.113.5")
      [{ ip_address := some "203.0.113.5", date := 20240101, operation_count := 5 }]).2.1
      { ip_address := some "203.0.113.5", date := 20240101, operation_count := 5 }
      (by decide) (by decide)


/-! ## Claim C6 -/

/-- C6: `get_session` fails closed.  An unknown token resolves to none and
leaves the table alone; a token found at or past its expiry deletes the row
and resolves to none, and (the token being unique) resolving it again at any
later time still yields none; a valid token resolves to its identity with
the guest/user discriminant while only `last_activity` is refreshed. -/
theorem C6_resolve_fails_closed (now now2 : Nat) (sessions : List UserSessionRow)
    (tok : String) :
    (sessions.find? (fun s => s.session_id == tok) = none →
      get_session now sessions tok = (none, sessions)) ∧
    (∀ s, sessions.find? (fun t => t.session_id == tok) = some s →
      s.expires_at ≤ now →
      get_session now sessions tok =
        (none, sessions.eraseP (fun t => t.session_id == tok)) ∧
      ((sessions.filter (fun t => t.session_id == tok)).length ≤ 1 →
        get_session now2 (sessions.eraseP (fun t => t.session_id == tok)) tok =
          (none, sessions.eraseP (fun t => t.session_id == tok)))) ∧
    (∀ s, sessions.find? (fun t => t.session_id == tok) = some s →
      now < s.expires_at →
      get_session now sessions tok =
        (some { user_id := s.user_id, is_guest := s.is_guest == "true", guest_ip := s.guest_ip, created_at := s.created_at, session_id := s.session_id },
         updateFirst (fun t => t.session_id == tok)
           (fun t => { t with last_activity := now }) sessions)) := by
  refine ⟨?_, ?_, ?_⟩
  · intro hfind
    simp [get_session, hfind]
  · intro s hfind hexp
    constructor
    · simp only [get_session, hfind]
      rw [if_pos hexp]
    · intro hcount
      have hnone := find?_eraseP_of_unique hfind hcount
      simp [get_session, hnone]
  · intro s hfind hvalid
    simp only [get_session, hfind]
    rw [if_neg (by omega)]

/-- C6 witness: the concrete session expiring at 50 resolves at 49 with a
refreshed `last_activity`, resolves to none at 50 with the row deleted, and
a second resolve after the deletion still yields none. -/
theorem C6_witness :
    (get_session 50 exampleSessions "tok" =
      (none, exampleSessions.eraseP (fun t => t.session_id == "tok")) ∧
      (get_session 51 (exampleSessions.eraseP (fun t => t.session_id == "tok")) "tok" =
        (none, exampleSessions.eraseP (fun t => t.session_id == "tok")))) ∧
    get_session 49 exampleSessions "tok" =
      (some { user_id := some 3, is_guest := false, guest_ip := none, created_at := 0, session_id := "tok" },
       updateFirst (fun t => t.session_id == "tok")
         (fun t => { t with last_activity := 49 }) exampleSessions) := by
  constructor
  · have h := (C6_resolve_fails_closed 50 51 exampleSessions "tok").2.1
      exampleSessionRow (by decide) (by decide)
    exact ⟨h.1, h.2 (by decide)⟩
  · exact (C6_resolve_fails_closed 49 51 exampleSessions "tok").2.2
      exampleSessionRow (by decide) (by decide)


/-! ## Claim C1 -/

/-- C1 counterexample: approving the concrete pending image-delete request
succeeds (request stamped approved), yet the target Image row is still in
the catalog and its backing file is still in the store — contradicting the
claim that approval deletes the row and the file. -/
theorem C1_counterexample :
    (handle_pending_request 9 100 "" 1 { action := "approve" } exampleDeleteDb exampleDeleteFs).res
        = .ok "请求已批准" ∧
    (handle_pending_request 9 100 "" 1 { action := "approve" } exampleDeleteDb exampleDeleteFs).db.images
        = exampleDeleteDb.images ∧
    exampleDeleteDb.images ≠ [] ∧
    (handle_pending_request 9 100 "" 1 { action := "approve" } exampleDeleteDb exampleDeleteFs).fs
        = exampleDeleteFs ∧
    ((handle_pending_request 9 100 "" 1 { action := "approve" } exampleDeleteDb exampleDeleteFs).db.pending_requests.map
        (fun r => r.status)) = [RequestStatus.APPROVED] := by
  refine ⟨rfl, rfl, by decide, rfl, rfl⟩

/-- C1 (amended): approving a pending image-delete request only marks it
approved with reviewer and timestamp; the Image rows and the file store are
untouched (the source leaves image deletion to the admin's direct delete
endpoint). -/
theorem C1_image_delete_approval_no_catalog_effect
    {a n : Nat} {fid : String} {rid : Nat} {db0 : Db} {fs0 : Fs} {r : PendingRow}
    (hfind : db0.pending_requests.find? (fun q => q.id == rid) = some r)
    (hst : r.status = RequestStatus.PENDING)
    (hty : r.request_type = "delete") :
    (handle_pending_request a n fid rid { action := "approve" } db0 fs0).res = .ok "请求已批准" ∧
    (handle_pending_request a n fid rid { action := "approve" } db0 fs0).db.images = db0.images ∧
    (handle_pending_request a n fid rid { action := "approve" } db0 fs0).fs = fs0 ∧
    (handle_pending_request a n fid rid { action := "approve" } db0 fs0).db.pending_requests.find?
        (fun q => q.id == rid) =
      some { r with status := RequestStatus.APPROVED, reviewed_at := some n, reviewed_by := some a } := by
  have hbr : approve_branch fid r { cur := db0, commits := [] } fs0 = .ok ({ cur := db0, commits := [] }, fs0) := by
    simp [approve_branch, hty]
  refine ⟨?_, ?_, ?_, ?_⟩
  · simp [handle_pending_request, hfind, hst, hbr, finishH, DbSession.start, DbSession.commit,
      setStatusAndStamp]
  · simp [handle_pending_request, hfind, hst, hbr, finishH, DbSession.start, DbSession.commit,
      setStatusAndStamp]
  · simp [handle_pending_request, hfind, hst, hbr, finishH, DbSession.start, DbSession.commit,
      setStatusAndStamp]
  · simp [handle_pending_request, hfind, hst, hbr, finishH, DbSession.start, DbSession.commit,
      setStatusAndStamp]
    exact find?_updateFirst_of_pres (p := fun q => q.id == rid)
      (f := fun (q : PendingRow) => { q with status := RequestStatus.APPROVED, reviewed_at := some n, reviewed_by := some a })
      (fun q => rfl) hfind

/-- C1 witness: the amended statement at the concrete catalog. -/
theorem C1_witness :
    (handle_pending_request 9 100 "" 1 { action := "approve" } exampleDeleteDb exampleDeleteFs).res
        = .ok "请求已批准" ∧
    (handle_pending_request 9 100 "" 1 { action := "approve" } exampleDeleteDb exampleDeleteFs).db.images
        = exampleDeleteDb.images ∧
    (handle_pending_request 9 100 "" 1 { action := "approve" } exampleDeleteDb exampleDeleteFs).fs
        = exampleDeleteFs ∧
    (handle_pending_request 9 100 "" 1 { action := "approve" } exampleDeleteDb exampleDeleteFs).db.pending_requests.find?
        (fun q => q.id == 1) =
      some { exampleDeleteRow with status := RequestStatus.APPROVED, reviewed_at := some 100, reviewed_by := some 9 } :=
  C1_image_delete_approval_no_catalog_effect (r := exampleDeleteRow) rfl rfl rfl


/-! ## Claim C2 -/

/-- C2 counterexample: approving the concrete pending group-add request
performs two separate commits, and in the first committed (durable) state
the group has already been created while the request is still `pending` —
the decision is not applied as a single commit unit. -/
theorem C2_counterexample :
    exampleGroupAddRun.res = .ok "请求已批准" ∧
    exampleGroupAddRun.commits.length = 2 ∧
    (exampleGroupAddRun.commits.head?.map (fun d => d.groups.map (fun g => g.name))) =
      some ["Acolytes"] ∧
    (exampleGroupAddRun.commits.head?.bind (fun d =>
      (d.pending_requests.find? (fun r => r.id == 1)).map (fun r => r.status))) =
      some RequestStatus.PENDING := by
  refine ⟨rfl, rfl, rfl, rfl⟩

/-- C2 (amended): the decision is applied across several commits — the
catalog mutation is committed by the service layer before the status
transition commits (see the counterexample's intermediate state) — but the
failure half of the claim holds: whenever the decision raises, nothing has
been committed, so the durable database, the commit list, the file store and
the looked-up request (still `pending`) are exactly as before the call. -/
theorem C2_decision_failure_rolls_back
    {a n : Nat} {fid : String} {rid : Nat} {act : PendingRequestAction}
    {db0 : Db} {fs0 : Fs} {e : HErr}
    (h : (handle_pending_request a n fid rid act db0 fs0).res = .error e) :
    (handle_pending_request a n fid rid act db0 fs0).db = db0 ∧
    (handle_pending_request a n fid rid act db0 fs0).commits = [] ∧
    (handle_pending_request a n fid rid act db0 fs0).fs = fs0 ∧
    ∀ r, db0.pending_requests.find? (fun q => q.id == rid) = some r →
      (handle_pending_request a n fid rid act db0 fs0).db.pending_requests.find?
        (fun q => q.id == rid) = some r := by
  obtain ⟨h1, h2, h3⟩ := handle_error_unchanged h
  exact ⟨h1, h2, h3, fun r hr => by rw [h1]; exact hr⟩

/-- C2 witness: approving the stale image-edit request (its target image is
gone) raises the not-found error, and the durable state, commit list, file
store and the still-pending request are unchanged. -/
theorem C2_witness :
    (handle_pending_request 9 100 "" 1 { action := "approve" } exampleEditGoneDb []).db
        = exampleEditGoneDb ∧
    (handle_pending_request 9 100 "" 1 { action := "approve" } exampleEditGoneDb []).commits
        = [] ∧
    (handle_pending_request 9 100 "" 1 { action := "approve" } exampleEditGoneDb []).fs = [] ∧
    (handle_pending_request 9 100 "" 1 { action := "approve" } exampleEditGoneDb []).db.pending_requests.find?
        (fun q => q.id == 1) = some exampleEditGoneRow := by
  have h := @C2_decision_failure_rolls_back 9 100 "" 1 { action := "approve" }
    exampleEditGoneDb [] (.http 404 "图片不存在") rfl
  exact ⟨h.1, h.2.1, h.2.2.1, h.2.2.2 exampleEditGoneRow rfl⟩


/-! ## Claim C3 -/

/-- C3: deciding an unknown request id raises not-found with no changes;
deciding a request whose status is not `pending` raises the conflict error
with no changes; and after any successful decision, a second decision on the
same id — with any action — raises the conflict error and changes nothing,
so the side effect is never applied twice. -/
theorem C3_double_apply_guard (a n : Nat) (fid : String) (rid : Nat)
    (act : PendingRequestAction) (db0 : Db) (fs0 : Fs) :
    (db0.pending_requests.find? (fun r => r.id == rid) = none →
      (handle_pending_request a n fid rid act db0 fs0).res = .error (.http 404 "请求不存在") ∧
      (handle_pending_request a n fid rid act db0 fs0).db = db0 ∧
      (handle_pending_request a n fid rid act db0 fs0).fs = fs0) ∧
    (∀ r, db0.pending_requests.find? (fun q => q.id == rid) = some r →
      r.status ≠ RequestStatus.PENDING →
      (handle_pending_request a n fid rid act db0 fs0).res = .error (.http 400 "请求已处理") ∧
      (handle_pending_request a n fid rid act db0 fs0).db = db0 ∧
      (handle_pending_request a n fid rid act db0 fs0).fs = fs0) ∧
    (∀ m, (handle_pending_request a n fid rid act db0 fs0).res = .ok m →
      ∀ a2 n2 fid2 act2 fs2,
        (handle_pending_request a2 n2 fid2 rid act2
          (handle_pending_request a n fid rid act db0 fs0).db fs2).res =
            .error (.http 400 "请求已处理") ∧
        (handle_pending_request a2 n2 fid2 rid act2
          (handle_pending_request a n fid rid act db0 fs0).db fs2).db =
            (handle_pending_request a n fid rid act db0 fs0).db ∧
        (handle_pending_request a2 n2 fid2 rid act2
          (handle_pending_request a n fid rid act db0 fs0).db fs2).fs = fs2) := by
  refine ⟨?_, ?_, ?_⟩
  · intro hfind
    obtain ⟨h1, h2, -, h4⟩ := @handle_not_found a n fid rid act db0 fs0 hfind
    exact ⟨h1, h2, h4⟩
  · intro r hfind hst
    obtain ⟨h1, h2, -, h4⟩ := @handle_conflict a n fid rid act db0 fs0 r hfind hst
    exact ⟨h1, h2, h4⟩
  · intro m hok a2 n2 fid2 act2 fs2
    obtain ⟨req, st, -, hstor, hfind2⟩ := handle_ok_find hok
    have hstamped : ({ req with status := st, reviewed_at := some n, reviewed_by := some a } : PendingRow).status ≠ RequestStatus.PENDING := by
      rcases hstor with rfl | rfl <;>
        simp [RequestStatus.APPROVED, RequestStatus.REJECTED, RequestStatus.PENDING]
    obtain ⟨h1, h2, -, h4⟩ := @handle_conflict a2 n2 fid2 rid act2
      (handle_pending_request a n fid rid act db0 fs0).db fs2 _ hfind2 hstamped
    exact ⟨h1, h2, h4⟩

/-- C3 witness: deciding the already-approved concrete request conflicts and
changes nothing, and an unknown id is not-found. -/
theorem C3_witness :
    ((handle_pending_request 9 100 "" 1 { action := "approve" } exampleApprovedDb []).res
        = .error (.http 400 "请求已处理") ∧
      (handle_pending_request 9 100 "" 1 { action := "approve" } exampleApprovedDb []).db
        = exampleApprovedDb) ∧
    (handle_pending_request 9 100 "" 77 { action := "reject" } exampleApprovedDb []).res
        = .error (.http 404 "请求不存在") := by
  constructor
  · have h := (C3_double_apply_guard 9 100 "" 1 { action := "approve" } exampleApprovedDb []).2.1
      exampleApprovedRow rfl (by decide)
    exact ⟨h.1, h.2.1⟩
  · exact ((C3_double_apply_guard 9 100 "" 77 { action := "reject" } exampleApprovedDb []).1 rfl).1


/-! ## Claim C5 -/

/-- C5: the duplicate-name check is re-run at approval time.  Approving a
pending `group_add` whose proposed name now exists (globally) raises the
duplicate-name conflict, creates nothing and leaves the request pending
with no commit; approving a pending `character_add` whose proposed
(group, name) now exists (within that group) does the same. -/
theorem C5_approval_time_duplicate_check
    (a n : Nat) (fid : String) (rid : Nat) (db0 : Db) (fs0 : Fs) :
    (∀ r p nm, db0.pending_requests.find? (fun q => q.id == rid) = some r →
      r.status = RequestStatus.PENDING →
      r.request_type = "group_add" →
      r.image_data = some p →
      p.name = some nm →
      (∃ g ∈ db0.groups, g.name = nm) →
      (handle_pending_request a n fid rid { action := "approve" } db0 fs0).res =
          .error (.http 400 "分组名称已存在") ∧
      (handle_pending_request a n fid rid { action := "approve" } db0 fs0).db = db0 ∧
      (handle_pending_request a n fid rid { action := "approve" } db0 fs0).commits = [] ∧
      (handle_pending_request a n fid rid { action := "approve" } db0 fs0).db.pending_requests.find?
          (fun q => q.id == rid) = some r) ∧
    (∀ r p nm gid, db0.pending_requests.find? (fun q => q.id == rid) = some r →
      r.status = RequestStatus.PENDING →
      r.request_type = "character_add" →
      r.image_data = some p →
      p.name = some nm →
      p.group_id = some gid →
      (∃ c ∈ db0.characters, c.group_id = gid ∧ c.name = nm) →
      (handle_pending_request a n fid rid { action := "approve" } db0 fs0).res =
          .error (.http 400 "该分组下已存在同名角色") ∧
      (handle_pending_request a n fid rid { action := "approve" } db0 fs0).db = db0 ∧
      (handle_pending_request a n fid rid { action := "approve" } db0 fs0).commits = [] ∧
      (handle_pending_request a n fid rid { action := "approve" } db0 fs0).db.pending_requests.find?
          (fun q => q.id == rid) = some r) := by
  constructor
  · intro r p nm hfind hst hty hdata hname hdup
    have hdupb : (db0.groups.find? (fun g => some g.name == p.name)).isSome = true := by
      rw [List.find?_isSome]
      obtain ⟨g, hg, hgname⟩ := hdup
      exact ⟨g, hg, by simp [hgname, hname]⟩
    have hbr : approve_branch fid r { cur := db0, commits := [] } fs0 =
        .error (.http 400 "分组名称已存在", { cur := db0, commits := [] }, fs0) := by
      simp [approve_branch, approve_group_add, hty, hdata, hdupb]
    have hres : (handle_pending_request a n fid rid { action := "approve" } db0 fs0).res =
        .error (.http 400 "分组名称已存在") := by
      simp [handle_pending_request, hfind, hst, hbr, raiseH, DbSession.start, DbSession.persisted]
    obtain ⟨h1, h2, -⟩ := handle_error_unchanged hres
    exact ⟨hres, h1, h2, by rw [h1]; exact hfind⟩
  · intro r p nm gid hfind hst hty hdata hname hgid hdup
    have hdupb : (db0.characters.find? (fun c =>
        some c.group_id == p.group_id && some c.name == p.name)).isSome = true := by
      rw [List.find?_isSome]
      obtain ⟨c, hc, hcg, hcn⟩ := hdup
      exact ⟨c, hc, by simp [hcg, hcn, hname, hgid]⟩
    have hbr : approve_branch fid r { cur := db0, commits := [] } fs0 =
        .error (.http 400 "该分组下已存在同名角色", { cur := db0, commits := [] }, fs0) := by
      simp [approve_branch, approve_character_add, hty, hdata, hdupb]
    have hres : (handle_pending_request a n fid rid { action := "approve" } db0 fs0).res =
        .error (.http 400 "该分组下已存在同名角色") := by
      simp [handle_pending_request, hfind, hst, hbr, raiseH, DbSession.start, DbSession.persisted]
    obtain ⟨h1, h2, -⟩ := handle_error_unchanged hres
    exact ⟨hres, h1, h2, by rw [h1]; exact hfind⟩

/-- C5 witness: the second `character_add` for "Vex" in group "Acolytes"
fails at approval with the duplicate conflict and stays pending, and a
`group_add` for the now-existing "Acolytes" fails likewise. -/
theorem C5_witness :
    ((handle_pending_request 9 100 "" 2 { action := "approve" } exampleDupCharDb []).res =
        .error (.http 400 "该分组下已存在同名角色") ∧
      (handle_pending_request 9 100 "" 2 { action := "approve" } exampleDupCharDb []).db =
        exampleDupCharDb ∧
      (handle_pending_request 9 100 "" 2 { action := "approve" } exampleDupCharDb []).db.pending_requests.find?
          (fun q => q.id == 2) = some exampleCharAddRow) ∧
    ((handle_pending_request 9 100 "" 1 { action := "approve" } exampleDupGroupDb []).res =
        .error (.http 400 "分组名称已存在") ∧
      (handle_pending_request 9 100 "" 1 { action := "approve" } exampleDupGroupDb []).db =
        exampleDupGroupDb) := by
  constructor
  · have h := (C5_approval_time_duplicate_check 9 100 "" 2 exampleDupCharDb []).2
      exampleCharAddRow { name := some "Vex", group_id := some 1 } "Vex" 1
      rfl rfl rfl rfl rfl rfl
      ⟨{ id := 1, name := "Vex", group_id := 1, description := none }, by decide, rfl, rfl⟩
    exact ⟨h.1, h.2.1, h.2.2.2⟩
  · have h := (C5_approval_time_duplicate_check 9 100 "" 1 exampleDupGroupDb []).1
      exampleGroupAddRow { name := some "Acolytes" } "Acolytes"
      rfl rfl rfl rfl rfl
      ⟨{ id := 1, name := "Acolytes", description := none }, by decide, rfl⟩
    exact ⟨h.1, h.2.1⟩


theorem resolve_caller_ok {now today : Nat} {cookie : Option String} {db0 : Db}
    {ctx : CallerCtx} {db1 : Db}
    (h : resolve_caller now today cookie db0 = .ok (ctx, db1)) :
    db1.pending_requests = db0.pending_requests ∧
    db1.groups = db0.groups ∧
    db1.characters = db0.characters ∧
    db1.images = db0.images ∧
    db1.next_pending_id = db0.next_pending_id ∧
    (ctx.user_id = none ∨ ctx.guest_ip = none) ∧
    (ctx.is_admin = true → ctx.guest_ip = none ∧ ∃ uid, ctx.user_id = some uid) := by
  unfold resolve_caller at h
  dsimp only at h
  repeat' split at h
  all_goals try (simp only [Except.ok.injEq, Prod.mk.injEq] at h; obtain ⟨h1, h2⟩ := h; subst h1; subst h2)
  all_goals simp_all

theorem create_group_rows_at_most_one (now today : Nat) (cookie : Option String)
    (group : GroupCreate) (db0 : Db) :
    ∀ r ∈ (Api.create_group now today cookie group db0).db.pending_requests,
      r ∈ db0.pending_requests ∨ r.user_id = none ∨ r.guest_ip = none := by
  intro r hr
  by_cases hdup : (db0.groups.find? (fun g => g.name == group.name)).isSome
  · simp only [Api.create_group, if_pos hdup] at hr
    exact .inl hr
  · cases hres : resolve_caller now today cookie db0 with
    | error e =>
      simp only [Api.create_group, if_neg hdup, hres] at hr
      exact .inl hr
    | ok pr =>
      obtain ⟨ctx, db1⟩ := pr
      obtain ⟨hpend, -, -, -, -, hone, -⟩ := resolve_caller_ok hres
      by_cases hadm : ctx.is_admin
      · simp only [Api.create_group, if_neg hdup, hres, hadm, if_pos] at hr
        rw [create_group_pending] at hr
        exact .inl (hpend ▸ hr)
      · simp only [Api.create_group, if_neg hdup, hres, hadm] at hr
        simp only [Bool.false_eq_true, if_false] at hr
        rcases List.mem_append.mp hr with hmem | hmem
        · exact .inl (hpend ▸ hmem)
        · right
          have : r = { id := db1.next_pending_id, request_type := "group_add", user_id := ctx.user_id, guest_ip := ctx.guest_ip, image_data := some { name := some group.name, description := group.description } } := by
            simpa using hmem
          subst this
          simpa using hone


theorem update_group_rows_at_most_one (now today : Nat) (cookie : Option String)
    (group_id : Nat) (group_update : GroupUpdate) (db0 : Db) :
    ∀ r ∈ (Api.update_group now today cookie group_id group_update db0).db.pending_requests,
      r ∈ db0.pending_requests ∨ r.user_id = none ∨ r.guest_ip = none := by
  intro r hr
  cases hres : resolve_caller now today cookie db0 with
  | error e =>
    simp only [Api.update_group, hres] at hr
    exact .inl hr
  | ok pr =>
    obtain ⟨ctx, db1⟩ := pr
    obtain ⟨hpend, -, -, -, -, hone, -⟩ := resolve_caller_ok hres
    by_cases hex : (db1.groups.find? (fun g => g.id == group_id)).isNone
    · simp only [Api.update_group, hres, if_pos hex] at hr
      exact .inl hr
    · by_cases hadm : ctx.is_admin
      · simp only [Api.update_group, hres, if_neg hex, hadm, if_pos] at hr
        rw [update_group_pending] at hr
        exact .inl (hpend ▸ hr)
      · simp only [Api.update_group, hres, if_neg hex, hadm] at hr
        simp only [Bool.false_eq_true, if_false] at hr
        rcases List.mem_append.mp hr with hmem | hmem
        · exact .inl (hpend ▸ hmem)
        · right
          have : r = { id := db1.next_pending_id, request_type := "group_edit", user_id := ctx.user_id, guest_ip := ctx.guest_ip, image_data := some { name := group_update.name, description := group_update.description, group_id := some group_id } } := by
            simpa using hmem
          subst this
          simpa using hone

theorem delete_group_rows_at_most_one (now today : Nat) (cookie : Option String)
    (group_id : Nat) (db0 : Db) :
    ∀ r ∈ (Api.delete_group now today cookie group_id db0).db.pending_requests,
      r ∈ db0.pending_requests ∨ r.user_id = none ∨ r.guest_ip = none := by
  intro r hr
  cases hres : resolve_caller now today cookie db0 with
  | error e =>
    simp only [Api.delete_group, hres] at hr
    exact .inl hr
  | ok pr =>
    obtain ⟨ctx, db1⟩ := pr
    obtain ⟨hpend, -, -, -, -, hone, -⟩ := resolve_caller_ok hres
    by_cases hex : (db1.groups.find? (fun g => g.id == group_id)).isNone
    · simp only [Api.delete_group, hres, if_pos hex] at hr
      exact .inl hr
    · by_cases hadm : ctx.is_admin
      · simp only [Api.delete_group, hres, if_neg hex, hadm, if_pos] at hr
        cases hdel : GroupService.delete_group group_id (DbSession.start db1) with
        | mk ok s =>
          cases ok with
          | false => simp only [hdel] at hr; exact .inl hr
          | true =>
            simp only [hdel] at hr
            have := delete_group_state_pending hdel
            rw [this] at hr
            exact .inl (hpend ▸ hr)
      · simp only [Api.delete_group, hres, if_neg hex, hadm] at hr
        simp only [Bool.false_eq_true, if_false] at hr
        rcases List.mem_append.mp hr with hmem | hmem
        · exact .inl (hpend ▸ hmem)
        · right
          have : r = { id := db1.next_pending_id, request_type := "group_delete", user_id := ctx.user_id, guest_ip := ctx.guest_ip, image_data := some { group_id := some group_id } } := by
            simpa using hmem
          subst this
          simpa using hone


theorem create_character_rows_at_most_one (now today : Nat) (cookie : Option String)
    (character : CharacterCreate) (db0 : Db) :
    ∀ r ∈ (Api.create_character now today cookie character db0).db.pending_requests,
      r ∈ db0.pending_requests ∨ r.user_id = none ∨ r.guest_ip = none := by
  intro r hr
  by_cases hdup : (db0.characters.find? (fun c =>
      c.group_id == character.group_id && c.name == character.name)).isSome
  · simp only [Api.create_character, if_pos hdup] at hr
    exact .inl hr
  · cases hres : resolve_caller now today cookie db0 with
    | error e =>
      simp only [Api.create_character, if_neg hdup, hres] at hr
      exact .inl hr
    | ok pr =>
      obtain ⟨ctx, db1⟩ := pr
      obtain ⟨hpend, -, -, -, -, hone, -⟩ := resolve_caller_ok hres
      by_cases hex : (db1.groups.find? (fun g => g.id == character.group_id)).isNone
      · simp only [Api.create_character, if_neg hdup, hres, if_pos hex] at hr
        exact .inl hr
      · by_cases hadm : ctx.is_admin
        · simp only [Api.create_character, if_neg hdup, hres, if_neg hex, hadm, if_pos] at hr
          rw [create_character_pending] at hr
          exact .inl (hpend ▸ hr)
        · simp only [Api.create_character, if_neg hdup, hres, if_neg hex, hadm] at hr
          simp only [Bool.false_eq_true, if_false] at hr
          rcases List.mem_append.mp hr with hmem | hmem
          · exact .inl (hpend ▸ hmem)
          · right
            have : r = { id := db1.next_pending_id, request_type := "character_add", user_id := ctx.user_id, guest_ip := ctx.guest_ip, image_data := some { name := some character.name, group_id := some character.group_id, description := character.description, nicknames := character.nicknames } } := by
              simpa using hmem
            subst this
            simpa using hone

theorem update_character_rows_at_most_one (now today : Nat) (cookie : Option String)
    (character_id : Nat) (character_update : CharacterUpdate) (db0 : Db) :
    ∀ r ∈ (Api.update_character now today cookie character_id character_update db0).db.pending_requests,
      r ∈ db0.pending_requests ∨ r.user_id = none ∨ r.guest_ip = none := by
  intro r hr
  cases hres : resolve_caller now today cookie db0 with
  | error e =>
    simp only [Api.update_character, hres] at hr
    exact .inl hr
  | ok pr =>
    obtain ⟨ctx, db1⟩ := pr
    obtain ⟨hpend, -, -, -, -, hone, -⟩ := resolve_caller_ok hres
    by_cases hex : (db1.characters.find? (fun c => c.id == character_id)).isNone
    · simp only [Api.update_character, hres, if_pos hex] at hr
      exact .inl hr
    · by_cases hgrp : (truthyNat character_update.group_id &&
          (db1.groups.find? (fun g => some g.id == character_update.group_id)).isNone) = true
      · simp only [Api.update_character, hres, if_neg hex, hgrp, if_pos] at hr
        exact .inl hr
      · by_cases hadm : ctx.is_admin
        · simp only [Api.update_character, hres, if_neg hex, hgrp, hadm, if_pos,
            Bool.false_eq_true, if_false] at hr
          rw [update_character_pending] at hr
          exact .inl (hpend ▸ hr)
        · simp only [Api.update_character, hres, if_neg hex, hgrp, hadm,
            Bool.false_eq_true, if_false] at hr
          rcases List.mem_append.mp hr with hmem | hmem
          · exact .inl (hpend ▸ hmem)
          · right
            have : r = { id := db1.next_pending_id, request_type := "character_edit", user_id := ctx.user_id, guest_ip := ctx.guest_ip, image_data := some { name := character_update.name, group_id := character_update.group_id, description := character_update.description, nicknames := character_update.nicknames, character_id := some character_id } } := by
              simpa using hmem
            subst this
            simpa using hone

theorem delete_character_rows_at_most_one (now today : Nat) (cookie : Option String)
    (character_id : Nat) (db0 : Db) :
    ∀ r ∈ (Api.delete_character now today cookie character_id db0).db.pending_requests,
      r ∈ db0.pending_requests ∨ r.user_id = none ∨ r.guest_ip = none := by
  intro r hr
  cases hres : resolve_caller now today cookie db0 with
  | error e =>
    simp only [Api.delete_character, hres] at hr
    exact .inl hr
  | ok pr =>
    obtain ⟨ctx, db1⟩ := pr
    obtain ⟨hpend, -, -, -, -, hone, -⟩ := resolve_caller_ok hres
    by_cases hex : (db1.characters.find? (fun c => c.id == character_id)).isNone
    · simp only [Api.delete_character, hres, if_pos hex] at hr
      exact .inl hr
    · by_cases hadm : ctx.is_admin
      · simp only [Api.delete_character, hres, if_neg hex, hadm, if_pos] at hr
        cases hdel : CharacterService.delete_character character_id (DbSession.start db1) with
        | mk ok s =>
          cases ok with
          | false => simp only [hdel] at hr; exact .inl hr
          | true =>
            simp only [hdel] at hr
            have := delete_character_state_pending hdel
            rw [this] at hr
            exact .inl (hpend ▸ hr)
      · simp only [Api.delete_character, hres, if_neg hex, hadm] at hr
        simp only [Bool.false_eq_true, if_false] at hr
        rcases List.mem_append.mp hr with hmem | hmem
        · exact .inl (hpend ▸ hmem)
        · right
          have : r = { id := db1.next_pending_id, request_type := "character_delete", user_id := ctx.user_id, guest_ip := ctx.guest_ip, image_data := some { character_id := some character_id } } := by
            simpa using hmem
          subst this
          simpa using hone


theorem update_image_rows_at_most_one (now today : Nat) (cookie : Option String)
    (image_id : String) (image_update : ImageUpdate) (db0 : Db) :
    ∀ r ∈ (Api.update_image now today cookie image_id image_update db0).db.pending_requests,
      r ∈ db0.pending_requests ∨ r.user_id = none ∨ r.guest_ip = none := by
  intro r hr
  cases hres : resolve_caller now today cookie db0 with
  | error e =>
    simp only [Api.update_image, hres] at hr
    exact .inl hr
  | ok pr =>
    obtain ⟨ctx, db1⟩ := pr
    obtain ⟨hpend, -, -, -, -, hone, -⟩ := resolve_caller_ok hres
    simp only [Api.update_image, hres] at hr
    by_cases hex : (db1.images.find? (fun i => i.image_id == image_id)).isNone
    · rw [if_pos hex] at hr
      exact .inl hr
    · rw [if_neg hex] at hr
      split at hr
      · exact .inl hr
      · by_cases hadm : ctx.is_admin
        · rw [if_pos hadm] at hr
          cases hupd : ImageService.update_image image_id image_update (DbSession.start db1) with
          | mk o s =>
            cases o with
            | none => simp only [hupd] at hr; exact .inl hr
            | some i =>
              simp only [hupd] at hr
              have := update_image_state_pending hupd
              rw [this] at hr
              exact .inl (hpend ▸ hr)
        · simp only [hadm, Bool.false_eq_true, if_false] at hr
          rcases List.mem_append.mp hr with hmem | hmem
          · exact .inl (hpend ▸ hmem)
          · right
            have : r = { id := db1.next_pending_id, request_type := "edit", user_id := ctx.user_id, guest_ip := ctx.guest_ip, image_id := some image_id, image_data := some { pid := image_update.pid, description := image_update.description, character_ids := image_update.character_ids } } := by
              simpa using hmem
            subst this
            simpa using hone

theorem delete_image_rows_at_most_one (now today : Nat) (cookie : Option String)
    (image_id : String) (db0 : Db) (fs0 : Fs) :
    ∀ r ∈ (Api.delete_image now today cookie image_id db0 fs0).db.pending_requests,
      r ∈ db0.pending_requests ∨ r.user_id = none ∨ r.guest_ip = none := by
  intro r hr
  cases hres : resolve_caller now today cookie db0 with
  | error e =>
    simp only [Api.delete_image, hres] at hr
    exact .inl hr
  | ok pr =>
    obtain ⟨ctx, db1⟩ := pr
    obtain ⟨hpend, -, -, -, -, hone, -⟩ := resolve_caller_ok hres
    simp only [Api.delete_image, hres] at hr
    by_cases hex : (db1.images.find? (fun i => i.image_id == image_id)).isNone
    · rw [if_pos hex] at hr
      exact .inl hr
    · rw [if_neg hex] at hr
      by_cases hadm : ctx.is_admin
      · rw [if_pos hadm] at hr
        cases hdel : ImageService.delete_image image_id (DbSession.start db1) fs0 with
        | mk o rest =>
          obtain ⟨s, fs⟩ := rest
          cases o with
          | false => simp only [hdel] at hr; exact .inl hr
          | true =>
            simp only [hdel] at hr
            have := delete_image_state_pending hdel
            rw [this] at hr
            exact .inl (hpend ▸ hr)
      · simp only [hadm, Bool.false_eq_true, if_false] at hr
        rcases List.mem_append.mp hr with hmem | hmem
        · exact .inl (hpend ▸ hmem)
        · right
          have : r = { id := db1.next_pending_id, request_type := "delete", user_id := ctx.user_id, guest_ip := ctx.guest_ip, image_id := some image_id } := by
            simpa using hmem
          subst this
          simpa using hone


theorem upload_single_rows_at_most_one (now today : Nat) (cookie : Option String)
    (filename : String) (character_id_list : List Nat) (group_id : Option Nat)
    (pid description : Option String) (fresh_image_id tmp_name unique_filename : String)
    (db0 : Db) (fs0 : Fs) :
    ∀ r ∈ (Api.upload_single_image now today cookie filename character_id_list group_id
        pid description fresh_image_id tmp_name unique_filename db0 fs0).db.pending_requests,
      r ∈ db0.pending_requests ∨ r.user_id = none ∨ r.guest_ip = none := by
  intro r hr
  by_cases hext : (allowedExtensions.contains ((lastDotPart filename).toLower)) = true
  · cases hres : resolve_caller now today cookie db0 with
    | error e =>
      simp only [Api.upload_single_image, hext, hres, Bool.not_true, Bool.false_eq_true,
        if_false] at hr
      exact .inl hr
    | ok pr =>
      obtain ⟨ctx, db1⟩ := pr
      obtain ⟨hpend, -, -, -, -, hone, -⟩ := resolve_caller_ok hres
      by_cases hadm : ctx.is_admin
      · simp only [Api.upload_single_image, hext, hres, hadm, Bool.not_true,
          Bool.false_eq_true, if_false, if_pos] at hr
        cases himg : ImageService.create_image fresh_image_id
            { character_ids := character_id_list, pid := pid, description := description }
            filename ((lastDotPart filename).toLower) (DbSession.start db1) (fs0.add tmp_name) with
        | mk image rest =>
          obtain ⟨s, fs⟩ := rest
          have hspend : s.cur.pending_requests = db1.pending_requests :=
            create_image_state_pending himg
          by_cases huid : truthyNat ctx.user_id
          · simp only [himg, huid, if_pos, DbSession.commit] at hr
            rcases List.mem_append.mp hr with hmem | hmem
            · exact .inl (hpend ▸ hspend ▸ hmem)
            · right; right
              have : r.guest_ip = none := by
                have : r = { id := s.cur.next_pending_id, request_type := "add", status := RequestStatus.APPROVED, user_id := ctx.user_id, image_id := some image.image_id, image_data := some { character_ids := some character_id_list, group_id := group_id, pid := pid, description := description }, reviewed_at := some now, reviewed_by := ctx.user_id } := by
                  simpa using hmem
                rw [this]
              exact this
          · simp only [himg, huid, Bool.false_eq_true, if_false] at hr
            exact .inl (hpend ▸ hspend ▸ hr)
      · simp only [Api.upload_single_image, hext, hres, hadm, Bool.not_true,
          Bool.false_eq_true, if_false] at hr
        split at hr
        · exact .inl hr
        · split at hr
          · exact .inl hr
          · rcases List.mem_append.mp hr with hmem | hmem
            · exact .inl (hpend ▸ hmem)
            · right
              have : r = { id := db1.next_pending_id, request_type := "add", user_id := ctx.user_id, guest_ip := ctx.guest_ip, image_data := some { character_ids := some character_id_list, group_id := group_id, pid := pid, description := description }, temp_file_path := some ("resource/pending/" ++ unique_filename), original_filename := some filename } := by
                simpa using hmem
              subst this
              simpa using hone
  · simp only [Api.upload_single_image, hext] at hr
    simp at hr
    exact .inl hr

theorem upload_temp_rows_at_most_one (now : Nat) (cookie : Option String)
    (filename : String) (character_ids : List Nat) (pid description : Option String)
    (fresh_image_id : String) (db0 : Db) (fs0 : Fs) :
    ∀ r ∈ (Api.upload_temp_image now cookie filename character_ids pid description
        fresh_image_id db0 fs0).db.pending_requests,
      r ∈ db0.pending_requests ∨ r.user_id = none ∨ r.guest_ip = none := by
  intro r hr
  simp only [Api.upload_temp_image] at hr
  by_cases hpath : fs0.contains ("resource/temp/" ++ filename)
  · simp only [hpath, Bool.not_true, Bool.false_eq_true, if_false] at hr
    by_cases hext : allowedExtensions.contains ((lastDotPart filename).toLower)
    · simp only [hext, Bool.not_true, Bool.false_eq_true, if_false] at hr
      split at hr
      · exact .inl hr
      · split at hr
        · simp only [DbSession.commit] at hr
          rcases List.mem_append.mp hr with hmem | hmem
          · rw [create_image_pending] at hmem
            exact .inl hmem
          · right; right
            simp only [List.mem_singleton] at hmem
            rw [hmem]
        · rw [create_image_pending] at hr
          exact .inl hr
    · simp only [hext, Bool.not_false, if_true] at hr
      exact .inl hr
  · simp only [hpath] at hr
    simp at hr
    exact .inl hr


/-! ## Claim C7 -/

/-- C7 counterexample: a submission with no session cookie (anonymous
caller) queues a pending row in which NEITHER the user id nor the guest IP
is set, contradicting the exactly-one invariant. -/
theorem C7_counterexample :
    exampleAnonRun.db.pending_requests =
      [{ exampleQueuedRow with user_id := none, guest_ip := none }] ∧
    (({} : Db)).pending_requests = [] := by
  constructor
  · rfl
  · rfl

/-- C7 (amended): every pending-request row created by any submission
endpoint has AT MOST one of user id / guest IP set (never both); a row
queued for an anonymous or defunct session carries neither. -/
theorem C7_rows_have_at_most_one_identity :
    (∀ now today cookie group db0,
      ∀ r ∈ (Api.create_group now today cookie group db0).db.pending_requests,
        r ∈ db0.pending_requests ∨ r.user_id = none ∨ r.guest_ip = none) ∧
    (∀ now today cookie group_id group_update db0,
      ∀ r ∈ (Api.update_group now today cookie group_id group_update db0).db.pending_requests,
        r ∈ db0.pending_requests ∨ r.user_id = none ∨ r.guest_ip = none) ∧
    (∀ now today cookie group_id db0,
      ∀ r ∈ (Api.delete_group now today cookie group_id db0).db.pending_requests,
        r ∈ db0.pending_requests ∨ r.user_id = none ∨ r.guest_ip = none) ∧
    (∀ now today cookie character db0,
      ∀ r ∈ (Api.create_character now today cookie character db0).db.pending_requests,
        r ∈ db0.pending_requests ∨ r.user_id = none ∨ r.guest_ip = none) ∧
    (∀ now today cookie character_id character_update db0,
      ∀ r ∈ (Api.update_character now today cookie character_id character_update db0).db.pending_requests,
        r ∈ db0.pending_requests ∨ r.user_id = none ∨ r.guest_ip = none) ∧
    (∀ now today cookie character_id db0,
      ∀ r ∈ (Api.delete_character now today cookie character_id db0).db.pending_requests,
        r ∈ db0.pending_requests ∨ r.user_id = none ∨ r.guest_ip = none) ∧
    (∀ now today cookie image_id image_update db0,
      ∀ r ∈ (Api.update_image now today cookie image_id image_update db0).db.pending_requests,
        r ∈ db0.pending_requests ∨ r.user_id = none ∨ r.guest_ip = none) ∧
    (∀ now today cookie image_id db0 fs0,
      ∀ r ∈ (Api.delete_image now today cookie image_id db0 fs0).db.pending_requests,
        r ∈ db0.pending_requests ∨ r.user_id = none ∨ r.guest_ip = none) ∧
    (∀ now today cookie filename character_id_list group_id pid description
        fresh_image_id tmp_name unique_filename db0 fs0,
      ∀ r ∈ (Api.upload_single_image now today cookie filename character_id_list group_id
          pid description fresh_image_id tmp_name unique_filename db0 fs0).db.pending_requests,
        r ∈ db0.pending_requests ∨ r.user_id = none ∨ r.guest_ip = none) ∧
    (∀ now cookie filename character_ids pid description fresh_image_id db0 fs0,
      ∀ r ∈ (Api.upload_temp_image now cookie filename character_ids pid description
          fresh_image_id db0 fs0).db.pending_requests,
        r ∈ db0.pending_requests ∨ r.user_id = none ∨ r.guest_ip = none) :=
  ⟨create_group_rows_at_most_one, update_group_rows_at_most_one,
   delete_group_rows_at_most_one, create_character_rows_at_most_one,
   update_character_rows_at_most_one, delete_character_rows_at_most_one,
   update_image_rows_at_most_one, delete_image_rows_at_most_one,
   upload_single_rows_at_most_one, upload_temp_rows_at_most_one⟩

/-- C7 witness: the amended property applied to the concrete anonymous
group submission and its queued row. -/
theorem C7_witness :
    exampleQueuedRow ∈ (({} : Db)).pending_requests ∨
    exampleQueuedRow.user_id = none ∨ exampleQueuedRow.guest_ip = none :=
  C7_rows_have_at_most_one_identity.1 0 0 none { name := "Gala" } {}
    exampleQueuedRow (by decide)


/-! ## Claim C8 -/

/-- C8 counterexample: an administrator's group creation applies the
mutation immediately but inserts NO request row at all (the contribution
ledger only receives rows from the image-upload endpoints), contradicting
the claim that every privileged mutation still inserts a pre-approved
request row. -/
theorem C8_counterexample :
    exampleAdminCreateRun.res = .ok (.inl { id := 1, name := "Gala", description := none }) ∧
    exampleAdminCreateRun.db.groups = [{ id := 1, name := "Gala", description := none }] ∧
    exampleAdminCreateRun.db.pending_requests = [] ∧
    exampleAdminDb.pending_requests = [] := by
  refine ⟨rfl, rfl, rfl, rfl⟩

/-- C8 (amended): a privileged caller never produces a pending row — the
mutation is applied immediately — but only the image-upload path inserts the
auto-approved bookkeeping row crediting the submitter; the group create and
delete endpoints (and their kin) insert no request row at all. -/
theorem C8_admin_short_circuit :
    (∀ now today cookie group db0 ctx db1,
      resolve_caller now today cookie db0 = .ok (ctx, db1) →
      ctx.is_admin = true →
      db0.groups.find? (fun g => g.name == group.name) = none →
      (Api.create_group now today cookie group db0).res =
        .ok (.inl { id := db1.next_group_id, name := group.name, description := group.description }) ∧
      (Api.create_group now today cookie group db0).db.groups =
        db1.groups ++ [{ id := db1.next_group_id, name := group.name, description := group.description }] ∧
      (Api.create_group now today cookie group db0).db.pending_requests = db0.pending_requests) ∧
    (∀ now today cookie group_id db0 ctx db1 g,
      resolve_caller now today cookie db0 = .ok (ctx, db1) →
      ctx.is_admin = true →
      db1.groups.find? (fun x => x.id == group_id) = some g →
      (Api.delete_group now today cookie group_id db0).res = .ok "Group deleted successfully" ∧
      (Api.delete_group now today cookie group_id db0).db.groups =
        db1.groups.filter (fun x => x.id != group_id) ∧
      (Api.delete_group now today cookie group_id db0).db.pending_requests = db0.pending_requests) ∧
    (∀ now today cookie filename character_id_list group_id pid description
        fresh_image_id tmp_name unique_filename db0 fs0 ctx db1 uid,
      allowedExtensions.contains ((lastDotPart filename).toLower) = true →
      resolve_caller now today cookie db0 = .ok (ctx, db1) →
      ctx.is_admin = true →
      ctx.user_id = some uid →
      uid ≠ 0 →
      (Api.upload_single_image now today cookie filename character_id_list group_id
          pid description fresh_image_id tmp_name unique_filename db0 fs0).res =
        .ok { image_id := fresh_image_id, message := "Image uploaded successfully" } ∧
      (∃ img, (Api.upload_single_image now today cookie filename character_id_list group_id
          pid description fresh_image_id tmp_name unique_filename db0 fs0).db.images =
            db1.images ++ [img] ∧ img.image_id = fresh_image_id) ∧
      (∃ row, (Api.upload_single_image now today cookie filename character_id_list group_id
          pid description fresh_image_id tmp_name unique_filename db0 fs0).db.pending_requests =
            db0.pending_requests ++ [row] ∧
          row.request_type = "add" ∧ row.status = RequestStatus.APPROVED ∧
          row.user_id = some uid ∧ row.guest_ip = none ∧ row.reviewed_by = some uid)) := by
  refine ⟨?_, ?_, ?_⟩
  · intro now today cookie group db0 ctx db1 hres hadm hdup
    obtain ⟨hpend, -, -, -, -, -, -⟩ := resolve_caller_ok hres
    have hdup' : (db0.groups.find? (fun g => g.name == group.name)).isSome = false := by
      simp [hdup]
    refine ⟨?_, ?_, ?_⟩
    · simp [Api.create_group, hdup', hres, hadm, GroupService.create_group, DbSession.start,
        DbSession.commit]
    · simp [Api.create_group, hdup', hres, hadm, GroupService.create_group, DbSession.start,
        DbSession.commit]
    · simp [Api.create_group, hdup', hres, hadm, GroupService.create_group, DbSession.start,
        DbSession.commit, hpend]
  · intro now today cookie group_id db0 ctx db1 g hres hadm hfind
    obtain ⟨hpend, -, -, -, -, -, -⟩ := resolve_caller_ok hres
    have hex : (db1.groups.find? (fun x => x.id == group_id)).isNone = false := by
      simp [hfind]
    refine ⟨?_, ?_, ?_⟩
    · simp [Api.delete_group, hres, hex, hadm, GroupService.delete_group, hfind,
        DbSession.start, DbSession.commit]
    · simp [Api.delete_group, hres, hex, hadm, GroupService.delete_group, hfind,
        DbSession.start, DbSession.commit]
    · simp [Api.delete_group, hres, hex, hadm, GroupService.delete_group, hfind,
        DbSession.start, DbSession.commit, hpend]
  · intro now today cookie filename character_id_list group_id pid description
      fresh_image_id tmp_name unique_filename db0 fs0 ctx db1 uid
      hext hres hadm huid hu0
    obtain ⟨hpend, -, -, -, hnext, -, -⟩ := resolve_caller_ok hres
    have hmem : (lastDotPart filename).toLower ∈ allowedExtensions := by
      simpa using hext
    have htr : truthyNat ctx.user_id = true := by
      simp [truthyNat, huid, hu0]
    have htr' : truthyNat (some uid) = true := by
      simp [truthyNat, hu0]
    refine ⟨?_, ?_, ?_⟩
    · simp [Api.upload_single_image, hmem, hres, hadm, htr, ImageService.create_image,
        save_image_file, DbSession.start, DbSession.commit]
    · refine ⟨{ image_id := fresh_image_id, pid := pid, description := description, original_filename := some filename, file_extension := (lastDotPart filename).toLower, file_path := "resource/store/" ++ (fresh_image_id ++ "." ++ (lastDotPart filename).toLower.toLower), character_ids := (db1.characters.filter (fun c => character_id_list.contains c.id)).map (fun c => c.id) }, ?_, rfl⟩
      simp [Api.upload_single_image, hmem, hres, hadm, htr, ImageService.create_image,
        save_image_file, DbSession.start, DbSession.commit]
    · refine ⟨{ id := db0.next_pending_id, request_type := "add", status := RequestStatus.APPROVED, user_id := some uid, image_id := some fresh_image_id, image_data := some { description := description, group_id := group_id, character_ids := some character_id_list, pid := pid }, reviewed_at := some now, reviewed_by := some uid }, ?_, rfl, rfl, rfl, rfl, rfl⟩
      simp [Api.upload_single_image, hmem, hres, hadm, htr, htr', ImageService.create_image,
        save_image_file, DbSession.start, DbSession.commit, hpend, hnext, huid]


/-- C8 witness: the concrete administrator's group creation applies the
mutation and inserts no request row. -/
theorem C8_witness :
    exampleAdminCreateRun.res = .ok (.inl { id := 1, name := "Gala", description := none }) ∧
    exampleAdminCreateRun.db.pending_requests = exampleAdminDb.pending_requests := by
  have h := C8_admin_short_circuit.1 5 0 (some "s1") { name := "Gala" } exampleAdminDb
    { is_admin := true, user_id := some 1, guest_ip := none }
    { exampleAdminDb with user_sessions := [{ session_id := "s1", user_id := some 1, guest_ip := none, is_guest := "false", created_at := 0, last_activity := 5, expires_at := 1000 }] }
    rfl rfl rfl
  exact ⟨h.1, h.2.2⟩

end PicMan

